import Mathlib

/-!
Verification development for the smilep1.js library (Plugwise Smile P1 client).

The source program is JavaScript (smilep1.js).  JavaScript numbers are
modelled exactly: a finite number is an explicit rational fraction (`JRat`,
whose operations are proved below to compute rational arithmetic via
`jrVal`), and `JNum := Option JRat` adds `none` for the non-finite results
`NaN`/`Infinity` as well as `undefined` flowing through arithmetic (all of
which propagate through the arithmetic the program performs and are falsy
or `NaN`-like in every context the program uses them in).  Record fields
that may be missing from a returned object are `Option JNum`: `none` is an
absent property, `some none` a property present with a non-finite/undefined
value, `some (some q)` a property present with the number `q`.
-/

namespace SmileP1

set_option maxRecDepth 8000

/-- An exact rational `num / den`, kept as an explicit (not necessarily
reduced) fraction so that all arithmetic evaluates inside the kernel.
Every value the program builds has a positive denominator (`jrDiv`
re-normalises the sign); `jrVal` gives the rational it denotes, and the
`jrVal` lemmas below show the operations compute rational arithmetic. -/
structure JRat where
  num : ℤ
  den : ℤ
  deriving Repr, DecidableEq

/-- The integer `n` as a `JRat`. -/
def jrOfInt (n : ℤ) : JRat := ⟨n, 1⟩

def jrAdd (x y : JRat) : JRat := ⟨x.num * y.den + y.num * x.den, x.den * y.den⟩

def jrSub (x y : JRat) : JRat := ⟨x.num * y.den - y.num * x.den, x.den * y.den⟩

def jrMul (x y : JRat) : JRat := ⟨x.num * y.num, x.den * y.den⟩

def jrNeg (x : JRat) : JRat := ⟨-x.num, x.den⟩

/-- Division, with the sign moved to the numerator so a positive-denominator
invariant is preserved. -/
def jrDiv (x y : JRat) : JRat :=
  if y.num * x.den < 0 then ⟨-(x.num * y.den), -(x.den * y.num)⟩
  else ⟨x.num * y.den, x.den * y.num⟩

/-- `⌊x + 1/2⌋` (for a positive denominator), the value of `Math.round`. -/
def jrFloorHalf (x : JRat) : ℤ := Int.fdiv (2 * x.num + x.den) (2 * x.den)

/-- The rational a `JRat` denotes. -/
def jrVal (x : JRat) : ℚ := (x.num : ℚ) / (x.den : ℚ)

/-- A JavaScript number that is either finite (`some q`) or non-finite /
undefined (`none`, covering `NaN`, `Infinity` and `undefined` in arithmetic). -/
abbrev JNum := Option JRat

/-- JavaScript `+` on numbers: `NaN`/`undefined` propagates. -/
def jadd (x y : JNum) : JNum :=
  match x, y with
  | some a, some b => some (jrAdd a b)
  | _, _ => none

/-- JavaScript `-` on numbers: `NaN`/`undefined` propagates. -/
def jsub (x y : JNum) : JNum :=
  match x, y with
  | some a, some b => some (jrSub a b)
  | _, _ => none

/-- JavaScript `*` on numbers: `NaN`/`undefined` propagates. -/
def jmul (x y : JNum) : JNum :=
  match x, y with
  | some a, some b => some (jrMul a b)
  | _, _ => none

/-- JavaScript `/` on numbers. Division by zero yields `Infinity`/`NaN`,
both modelled by `none`. -/
def jdiv (x y : JNum) : JNum :=
  match x, y with
  | some a, some b => if b.num = 0 then none else some (jrDiv a b)
  | _, _ => none

/-- JavaScript `Math.round`: for a finite number this is `⌊x + 1/2⌋`
(halves round toward positive infinity); `Math.round(NaN) = NaN`. -/
def jsRound (x : JNum) : JNum :=
  match x with
  | some a => some (jrOfInt (jrFloorHalf a))
  | none => none

/-- The program's 4-decimal rounding `Math.round(10000 * x) / 10000`. -/
def jround4 (x : JNum) : JNum :=
  jdiv (jsRound (jmul (some (jrOfInt 10000)) x)) (some (jrOfInt 10000))

/-- The program's 2-decimal rounding `Math.round(100 * x) / 100`. -/
def jround2 (x : JNum) : JNum :=
  jdiv (jsRound (jmul (some (jrOfInt 100)) x)) (some (jrOfInt 100))

/-- JavaScript falsiness of a possibly-absent numeric property:
`undefined` (absent), `NaN` and `0` are falsy (a fraction denotes `0`
exactly when its numerator is `0`). -/
def jsFalsy (x : Option JNum) : Bool :=
  match x with
  | none => true
  | some none => true
  | some (some q) => q.num = 0

/-! Soundness of the fraction arithmetic with respect to `ℚ`. -/

theorem jrVal_ofInt (n : ℤ) : jrVal (jrOfInt n) = (n : ℚ) := by
  simp [jrVal, jrOfInt]

theorem jrVal_add (x y : JRat) (hx : x.den ≠ 0) (hy : y.den ≠ 0) :
    jrVal (jrAdd x y) = jrVal x + jrVal y := by
  have hx2 : (x.den : ℚ) ≠ 0 := Int.cast_ne_zero.mpr hx
  have hy2 : (y.den : ℚ) ≠ 0 := Int.cast_ne_zero.mpr hy
  field_simp [jrVal, jrAdd]

theorem jrVal_sub (x y : JRat) (hx : x.den ≠ 0) (hy : y.den ≠ 0) :
    jrVal (jrSub x y) = jrVal x - jrVal y := by
  have hx2 : (x.den : ℚ) ≠ 0 := Int.cast_ne_zero.mpr hx
  have hy2 : (y.den : ℚ) ≠ 0 := Int.cast_ne_zero.mpr hy
  field_simp [jrVal, jrSub]
  ring

theorem jrVal_mul (x y : JRat) :
    jrVal (jrMul x y) = jrVal x * jrVal y := by
  simp [jrVal, jrMul]
  ring

theorem jrVal_neg (x : JRat) : jrVal (jrNeg x) = -jrVal x := by
  simp [jrVal, jrNeg, neg_div]

theorem jrVal_div (x y : JRat) :
    jrVal (jrDiv x y) = jrVal x / jrVal y := by
  have h : jrVal x / jrVal y = ((x.num * y.den : ℤ) : ℚ) / ((x.den * y.num : ℤ) : ℚ) := by
    simp only [jrVal, div_div_div_eq]
    push_cast
    ring_nf
  rw [h]
  unfold jrDiv
  split
  · simp only [jrVal, Int.cast_neg]
    rw [neg_div_neg_eq]
  · rfl

/-! ### The `Number(...)` string-to-number conversion

`jsNumber` models ECMAScript `ToNumber` on a string for the decimal string
literals the device emits: optional whitespace, an optional sign, a decimal
mantissa with an optional fraction, and an optional exponent.  A string
outside this grammar (which includes every non-numeric string the program
can meet) converts to `NaN`, i.e. `none`. -/

/-- The whitespace characters `Number` trims. -/
def isJsWhite (c : Char) : Bool :=
  c = ' ' || c = '\t' || c = '\n' || c = '\r' || c = '\x0b' || c = '\x0c'

/-- Value of a list of decimal digit characters. -/
def digitsVal (cs : List Char) : Nat :=
  cs.foldl (fun n c => n * 10 + (c.toNat - 48)) 0

/-- `10 ^ k` as an integer. -/
def pow10 (k : Nat) : ℤ := (10 : ℤ) ^ k

/-- Parse the optional exponent suffix, scaling `base`; the whole remaining
input must be consumed. -/
def parseExpSuffix (cs : List Char) (base : JRat) : JNum :=
  match cs with
  | [] => some base
  | e :: rest =>
    if e = 'e' || e = 'E' then
      let sign : Bool := match rest with
        | '-' :: _ => true
        | _ => false
      let rest2 := match rest with
        | '+' :: r => r
        | '-' :: r => r
        | r => r
      let ds := rest2.takeWhile Char.isDigit
      if ds.isEmpty || rest2.drop ds.length ≠ [] then none
      else if sign then some (jrDiv base (jrOfInt (pow10 (digitsVal ds))))
      else some (jrMul base (jrOfInt (pow10 (digitsVal ds))))
    else none

/-- Parse an unsigned decimal mantissa with optional fraction and exponent. -/
def parseDecimal (cs : List Char) : JNum :=
  let ip := cs.takeWhile Char.isDigit
  let rest := cs.drop ip.length
  match rest with
  | '.' :: rest2 =>
    let fp := rest2.takeWhile Char.isDigit
    let rest3 := rest2.drop fp.length
    if ip.isEmpty && fp.isEmpty then none
    else parseExpSuffix rest3
      ⟨(digitsVal ip : ℤ) * pow10 fp.length + (digitsVal fp : ℤ), pow10 fp.length⟩
  | _ =>
    if ip.isEmpty then none
    else parseExpSuffix rest (jrOfInt (digitsVal ip : ℤ))

/-- ECMAScript `Number(string)` on the decimal grammar (see above);
the empty (or all-whitespace) string converts to `0`. -/
def jsNumber (s : String) : JNum :=
  let cs := ((s.toList.dropWhile isJsWhite).reverse.dropWhile isJsWhite).reverse
  match cs with
  | [] => some (jrOfInt 0)
  | '+' :: rest => parseDecimal rest
  | '-' :: rest => (parseDecimal rest).map jrNeg
  | _ => parseDecimal cs

/-! ### The `Date.parse` model

`isoParseMs` models ECMAScript `Date.parse` on the ISO-8601 date-time
strings the device emits: `YYYY-MM-DDThh:mm:ss`, an optional fraction of
exactly three digits, and a mandatory UTC designator `Z` or signed offset
`±hh:mm` (the device always sends an offset).  Strings outside this subset
give `none`, modelling `NaN` (ECMA-262 allows `NaN` for any string that is
not in the Date Time String Format). -/

/-- Days from the civil epoch 1970-01-01 (proleptic Gregorian). -/
def daysFromCivil (y m d : ℤ) : ℤ :=
  let y2 := if m ≤ 2 then y - 1 else y
  let era := Int.fdiv (if 0 ≤ y2 then y2 else y2 - 399) 400
  let yoe := y2 - era * 400
  let mp := Int.emod (m + 9) 12
  let doy := Int.fdiv (153 * mp + 2) 5 + d - 1
  let doe := yoe * 365 + Int.fdiv yoe 4 - Int.fdiv yoe 100 + doy
  era * 146097 + doe - 719468

/-- Number of days in a month of a given year (Gregorian). -/
def daysInMonth (y m : ℤ) : ℤ :=
  if m = 2 then
    if Int.emod y 4 = 0 && (Int.emod y 100 ≠ 0 || Int.emod y 400 = 0) then 29 else 28
  else if m = 4 || m = 6 || m = 9 || m = 11 then 30
  else 31

/-- Read exactly `n` decimal digits; return their value and the rest. -/
def takeDigits (n : Nat) (cs : List Char) : Option (Nat × List Char) :=
  let ds := cs.take n
  if ds.length = n && ds.all Char.isDigit then some (digitsVal ds, cs.drop n)
  else none

/-- Expect a literal character. -/
def expectChar (c : Char) (cs : List Char) : Option (List Char) :=
  match cs with
  | x :: rest => if x = c then some rest else none
  | [] => none

/-- Parse the trailing time-zone designator, returning the offset in minutes. -/
def parseZone (cs : List Char) : Option ℤ :=
  match cs with
  | ['Z'] => some 0
  | c :: rest =>
    if c = '+' || c = '-' then
      match takeDigits 2 rest with
      | some (oh, r1) =>
        match expectChar ':' r1 with
        | some r2 =>
          match takeDigits 2 r2 with
          | some (om, []) =>
            if oh ≤ 23 && om ≤ 59 then
              some (if c = '-' then -((oh : ℤ) * 60 + om) else (oh : ℤ) * 60 + om)
            else none
          | _ => none
        | none => none
      | none => none
    else none
  | [] => none

/-- Parse an optional 3-digit millisecond fraction. -/
def parseFraction (cs : List Char) : Option (Nat × List Char) :=
  match cs with
  | '.' :: rest =>
    match takeDigits 3 rest with
    | some (ms, r) => some (ms, r)
    | none => none
  | _ => some (0, cs)

/-- `Date.parse` on the ISO subset, in milliseconds since the epoch. -/
def isoParseMs (s : String) : Option ℤ :=
  match takeDigits 4 s.toList with
  | none => none
  | some (y, r1) =>
    match expectChar '-' r1 with
    | none => none
    | some r2 =>
      match takeDigits 2 r2 with
      | none => none
      | some (mo, r3) =>
        match expectChar '-' r3 with
        | none => none
        | some r4 =>
          match takeDigits 2 r4 with
          | none => none
          | some (d, r5) =>
            match expectChar 'T' r5 with
            | none => none
            | some r6 =>
              match takeDigits 2 r6 with
              | none => none
              | some (h, r7) =>
                match expectChar ':' r7 with
                | none => none
                | some r8 =>
                  match takeDigits 2 r8 with
                  | none => none
                  | some (mi, r9) =>
                    match expectChar ':' r9 with
                    | none => none
                    | some r10 =>
                      match takeDigits 2 r10 with
                      | none => none
                      | some (se, r11) =>
                        match parseFraction r11 with
                        | none => none
                        | some (ms, r12) =>
                          match parseZone r12 with
                          | none => none
                          | some off =>
                            if 1 ≤ mo && mo ≤ 12 && 1 ≤ d && (d : ℤ) ≤ daysInMonth y mo
                                && h ≤ 23 && mi ≤ 59 && se ≤ 59 then
                              some ((daysFromCivil y mo d * 86400
                                + (h : ℤ) * 3600 + (mi : ℤ) * 60 + se) * 1000
                                + ms - off * 60000)
                            else none

/-- `Date.parse(s)` as a JavaScript number. -/
def jsDateParse (s : String) : JNum :=
  (isoParseMs s).map (fun n => jrOfInt n)

/-- `Date.parse(new Date(s))`: the string round-trips through a `Date`
object's second-precision string rendering, so milliseconds are floored
away; a string outside the ISO subset gives an invalid `Date` and `NaN`. -/
def jsDateParseViaDate (s : String) : JNum :=
  (isoParseMs s).map (fun n => jrOfInt (n - Int.emod n 1000))

/-! ### The regular-expression model

Every regular expression the program uses has the shape
`/LITERAL₁(.*?)LITERAL₂/`: a literal prefix, one lazy capture group whose
`.` cannot match a newline, and a literal suffix.  `regexExec` models
`RegExp.prototype.exec` for that shape, returning capture group 1 of the
first match: the engine scans start positions left to right, and at the
first position where the prefix matches it takes the shortest newline-free
capture followed by the suffix; if none exists there it resumes scanning at
the next position. -/

/-- Does `pat` occur at the head of `hay`? -/
def startsWithL : List Char → List Char → Bool
  | [], _ => true
  | _ :: _, [] => false
  | p :: ps, h :: hs => p = h && startsWithL ps hs

/-- Index of the leftmost occurrence of `pat` in `hay`. -/
def findIdxL (pat : List Char) : List Char → Option Nat
  | [] => if startsWithL pat [] then some 0 else none
  | h :: t =>
    if startsWithL pat (h :: t) then some 0
    else (findIdxL pat t).map (fun n => n + 1)

/-- A regular expression of the shape `/pre(.*?)post/` (with literal
`pre` and `post`). -/
structure RegexLit where
  pre : String
  post : String

/-- Core of `exec`: scan `hay` for the first position where `pre` matches
and a newline-free capture followed by `post` exists. -/
def execCore (pre post : List Char) : List Char → Option (List Char)
  | [] => none
  | h :: t =>
    if startsWithL pre (h :: t) then
      let rest := (h :: t).drop pre.length
      let seg := rest.takeWhile (fun c => c ≠ '\n')
      match findIdxL post seg with
      | some j => some (seg.take j)
      | none => execCore pre post t
    else execCore pre post t

/-- `r.exec(s)`, returning capture group 1 of the first match. -/
def regexExec (r : RegexLit) (s : String) : Option String :=
  (execCore r.pre.toList r.post.toList s.toList).map (fun cs => String.mk cs)

/-! The regex literals of smilep1.js (`\/` in the source is a plain `/`). -/

def regexMeasurePower : RegexLit :=
  ⟨"unit='W' directionality='consumed'>", "</measurement>"⟩
def regexMeasurePowerProduced : RegexLit :=
  ⟨"unit='W' directionality='produced'>", "</measurement>"⟩
def regexPowerPeak : RegexLit :=
  ⟨"unit='Wh' directionality='consumed' tariff_indicator='nl_peak'>", "</measurement>"⟩
def regexPowerOffpeak : RegexLit :=
  ⟨"unit='Wh' directionality='consumed' tariff_indicator='nl_offpeak'>", "</measurement>"⟩
def regexPowerPeakProduced : RegexLit :=
  ⟨"unit='Wh' directionality='produced' tariff_indicator='nl_peak'>", "</measurement>"⟩
def regexPowerOffpeakProduced : RegexLit :=
  ⟨"unit='Wh' directionality='produced' tariff_indicator='nl_offpeak'>", "</measurement>"⟩
def regexGas : RegexLit :=
  ⟨"unit='m3' directionality='consumed'>", "</measurement>"⟩
def regexPowerTm : RegexLit :=
  ⟨"<measurement log_date='", "' unit='Wh' directionality='consumed' tariff_indicator='nl_offpeak'>"⟩
def regexGasTm : RegexLit :=
  ⟨"<measurement log_date='", "' unit='m3' directionality='consumed'>"⟩
def regexFwLevel2 : RegexLit :=
  ⟨"<version>", "</version>"⟩
def regexFwLevel3 : RegexLit :=
  ⟨"<firmware_version>", "</firmware_version>"⟩

/-! ### The meter-reading record -/

/-- The `meterReadings` object.  Each field is an `Option JNum`:
`none` when the property is absent from the returned object. -/
structure MeterReadings where
  pwr : Option JNum := none
  l1 : Option JNum := none
  l2 : Option JNum := none
  l3 : Option JNum := none
  v1 : Option JNum := none
  v2 : Option JNum := none
  v3 : Option JNum := none
  i1 : Option JNum := none
  i2 : Option JNum := none
  i3 : Option JNum := none
  net : Option JNum := none
  p2 : Option JNum := none
  p1 : Option JNum := none
  n2 : Option JNum := none
  n1 : Option JNum := none
  tm : Option JNum := none
  gas : Option JNum := none
  gtm : Option JNum := none
  deriving Repr, DecidableEq

/-- The reversed-polarity fixup of `_getMeterReadings1`/`_getMeterReadings2`:
via a shallow copy `tmp`, the source assigns `readings.p1 = tmp.p2`,
`readings.p2 = tmp.p1`, `readings.n1 = tmp.n2`, `readings.n2 = tmp.n1` and
touches nothing else.  Reading an absent property yields `undefined`, and a
JavaScript assignment creates the target property even for that `undefined`
value — so every swapped field ends up present, holding the other field's
read value: `some (Option.join …)` under this file's conventions (an absent
counter materialises as present-with-undefined, a present counter carries
its number across unchanged). -/
def swapPolarity (r : MeterReadings) : MeterReadings :=
  { r with p1 := some r.p2.join, p2 := some r.p1.join,
           n1 := some r.n2.join, n2 := some r.n1.join }

/-! ### Strategy A: `_getMeterReadings1` -/

/-- The power-side try-block of `_getMeterReadings1`: all seven regex
matches (with their `Number` / `Date.parse` conversions and `/1000`
scalings) are computed before any field is assigned, so the block throws
— and yields nothing — exactly when some regex fails to match.
Components: consumed W, produced W, peak kWh, off-peak kWh, peak produced
kWh, off-peak produced kWh, timestamp in Unix seconds. -/
def powerPart (result : String) : Option (JNum × JNum × JNum × JNum × JNum × JNum × JNum) := do
  let a ← regexExec regexMeasurePower result
  let b ← regexExec regexMeasurePowerProduced result
  let c ← regexExec regexPowerPeak result
  let d ← regexExec regexPowerOffpeak result
  let e ← regexExec regexPowerPeakProduced result
  let f ← regexExec regexPowerOffpeakProduced result
  let g ← regexExec regexPowerTm result
  some (jsNumber a, jsNumber b,
    jdiv (jsNumber c) (some (jrOfInt 1000)), jdiv (jsNumber d) (some (jrOfInt 1000)),
    jdiv (jsNumber e) (some (jrOfInt 1000)), jdiv (jsNumber f) (some (jrOfInt 1000)),
    jdiv (jsDateParse g) (some (jrOfInt 1000)))

/-- The gas-side try-block of `_getMeterReadings1`: cumulative gas m³ and
its timestamp in Unix seconds; throws exactly when a regex fails to match. -/
def gasPart (result : String) : Option (JNum × JNum) := do
  let a ← regexExec regexGas result
  let b ← regexExec regexGasTm result
  some (jsNumber a, jdiv (jsDateParse b) (some (jrOfInt 1000)))

/-- The `readings` object of `_getMeterReadings1` as it stands right before
the `!readings.tm && !readings.gtm` validity check and the reversed fixup. -/
def rawReadings1 (result : String) : MeterReadings :=
  let r0 : MeterReadings := {}
  let r1 := match powerPart result with
    | some (mp, mpp, pp, po, ppp, pop, ptm) =>
      { r0 with
        pwr := some (jsub mp mpp),
        net := some (jdiv (jsRound (jmul (some (jrOfInt 10000))
          (jsub (jsub (jadd pp po) ppp) pop))) (some (jrOfInt 10000))),
        p2 := some pp, p1 := some po, n2 := some ppp, n1 := some pop,
        tm := some ptm }
    | none => r0
  match gasPart result with
  | some (g, gt) => { r1 with gas := some g, gtm := some gt }
  | none => r1

/-- `_getMeterReadings1` given the raw body of the `/core/modules` response
(the transport call itself is outside the extraction logic): regex-extract
power and gas independently, fail when both timestamps are falsy, apply the
reversed-polarity fixup last. -/
def _getMeterReadings1 (reversed : Bool) (result : String) : Except Unit MeterReadings :=
  if jsFalsy (rawReadings1 result).tm && jsFalsy (rawReadings1 result).gtm then Except.error ()
  else Except.ok (if reversed then swapPolarity (rawReadings1 result) else rawReadings1 result)

/-! ### Strategy B: `_getMeterReadings2`

The `/core/direct_objects` response is parsed by xml-js (`compact: true,
nativeType: true`) and the extractor walks
`json.direct_objects.location.logs`.  The embedding starts from that parsed
subtree.  A measurement holds its `_attributes.tariff_indicator` /
`_attributes.tariff` and its `_text`; `nativeType` turns numeric text into
numbers, so `_text` is a `JNum` (`none` for a missing or non-numeric
payload, which flows through the arithmetic like `undefined`/`NaN`).
`period.measurement` is a single object when the XML element occurs once
and an array when it repeats.  `type` is the log's `type._text`;
`updated_date` is `none` when the `updated_date` element is missing, in
which case reading `log.updated_date._text` throws a `TypeError` and the
call rejects. -/

/-- One `<measurement>` node of the parsed direct-objects tree. -/
structure PMeasurement where
  tariff_indicator : Option String := none
  tariff : Option String := none
  text : JNum := none
  deriving Repr, DecidableEq

/-- `log.period.measurement`: one node or an array of nodes. -/
inductive MNode where
  | single (m : PMeasurement)
  | arr (ms : List PMeasurement)
  deriving Repr, DecidableEq

/-- One `cumulative_log` / `point_log` entry. -/
structure DLog where
  type : String
  updated_date : Option String := none
  measurement : MNode
  deriving Repr, DecidableEq

/-- The `logs` subtree of the direct-objects response. -/
structure DirectObjectsLogs where
  cumulative_log : List DLog
  point_log : List DLog
  deriving Repr, DecidableEq

/-- The mutable locals of `_getMeterReadings2` with their initial values
(`0` for the energy/gas accumulators, the string `'0'` for the timestamps,
`undefined` — modelled `none` — for the per-phase values). -/
structure ExtractState2 where
  measurePower : JNum := some (jrOfInt 0)
  measurePowerProduced : JNum := some (jrOfInt 0)
  powerPeak : JNum := some (jrOfInt 0)
  powerOffpeak : JNum := some (jrOfInt 0)
  powerPeakProduced : JNum := some (jrOfInt 0)
  powerOffpeakProduced : JNum := some (jrOfInt 0)
  powerTm : String := "0"
  gas : JNum := some (jrOfInt 0)
  gasTm : String := "0"
  l1c : JNum := none
  l1p : JNum := none
  l2c : JNum := none
  l2p : JNum := none
  l3c : JNum := none
  l3p : JNum := none
  v1 : JNum := none
  v2 : JNum := none
  v3 : JNum := none
  deriving Repr, DecidableEq

/-- `measurement.filter(m => m._attributes.tariff_indicator === t ||
m._attributes.tariff === t)`. -/
def filterTariff (ms : List PMeasurement) (t : String) : List PMeasurement :=
  ms.filter (fun m => m.tariff_indicator == some t || m.tariff == some t)

/-- `filter(...)[0]._text / 1000`: reading `[0]._text` of an empty filter
result throws (`undefined._text`), rejecting the call. -/
def headText1000 (ms : List PMeasurement) (t : String) : Except Unit JNum :=
  match filterTariff ms t with
  | [] => Except.error ()
  | m :: _ => Except.ok (jdiv m.text (some (jrOfInt 1000)))

/-- `log.period.measurement._text`: `undefined` on an array. -/
def mnodeText (m : MNode) : JNum :=
  match m with
  | .single m => m.text
  | .arr _ => none

/-- One iteration of the `cumulative_log.forEach` body.  Calling `.filter`
on a non-array measurement, or touching a missing `updated_date`, throws. -/
def cumStep (st : ExtractState2) (log : DLog) : Except Unit ExtractState2 := do
  let st ←
    if log.type = "electricity_consumed" then
      match log.measurement with
      | .single _ => Except.error ()
      | .arr ms => do
        let po ← headText1000 ms "nl_offpeak"
        let pp ← headText1000 ms "nl_peak"
        match log.updated_date with
        | none => Except.error ()
        | some d => Except.ok { st with powerOffpeak := po, powerPeak := pp, powerTm := d }
    else Except.ok st
  let st ←
    if log.type = "electricity_produced" then
      match log.measurement with
      | .single _ => Except.error ()
      | .arr ms => do
        let po ← headText1000 ms "nl_offpeak"
        let pp ← headText1000 ms "nl_peak"
        Except.ok { st with powerOffpeakProduced := po, powerPeakProduced := pp }
    else Except.ok st
  if log.type = "gas_consumed" then
    let g := mnodeText log.measurement
    match log.updated_date with
    | none => Except.error ()
    | some d => Except.ok { st with gas := g, gasTm := d }
  else Except.ok st

/-- One iteration of the `point_log.forEach` body.  For a tariff-split
present-power array, `measurement[1]._text + measurement[0]._text` throws
when the array has fewer than two entries. -/
def pointStep (st : ExtractState2) (log : DLog) : Except Unit ExtractState2 := do
  let st := if log.type = "voltage_phase_one" then { st with v1 := mnodeText log.measurement } else st
  let st := if log.type = "voltage_phase_two" then { st with v2 := mnodeText log.measurement } else st
  let st := if log.type = "voltage_phase_three" then { st with v3 := mnodeText log.measurement } else st
  let st := if log.type = "electricity_phase_one_consumed" then { st with l1c := mnodeText log.measurement } else st
  let st := if log.type = "electricity_phase_one_produced" then { st with l1p := mnodeText log.measurement } else st
  let st := if log.type = "electricity_phase_two_consumed" then { st with l2c := mnodeText log.measurement } else st
  let st := if log.type = "electricity_phase_two_produced" then { st with l2p := mnodeText log.measurement } else st
  let st := if log.type = "electricity_phase_three_consumed" then { st with l3c := mnodeText log.measurement } else st
  let st := if log.type = "electricity_phase_three_produced" then { st with l3p := mnodeText log.measurement } else st
  let st ←
    if log.type = "electricity_consumed" then
      match log.measurement with
      | .arr (m0 :: m1 :: _) => Except.ok { st with measurePower := jadd m1.text m0.text }
      | .arr _ => Except.error ()
      | .single m => Except.ok { st with measurePower := m.text }
    else Except.ok st
  if log.type = "electricity_produced" then
    match log.measurement with
    | .arr (m0 :: m1 :: _) => Except.ok { st with measurePowerProduced := jadd m1.text m0.text }
    | .arr _ => Except.error ()
    | .single m => Except.ok { st with measurePowerProduced := m.text }
  else Except.ok st

/-- Both `forEach` walks of `_getMeterReadings2`. -/
def extractLogs (logs : DirectObjectsLogs) : Except Unit ExtractState2 := do
  let st ← logs.cumulative_log.foldlM cumStep {}
  logs.point_log.foldlM pointStep st

/-- The field-assembly stage of `_getMeterReadings2`: every `readings`
property is assigned unconditionally from the walk's final state. -/
def assemble2 (st : ExtractState2) : MeterReadings :=
  let l1v := jsub st.l1c st.l1p
  let l2v := jsub st.l2c st.l2p
  let l3v := jsub st.l3c st.l3p
  { pwr := some (jsub st.measurePower st.measurePowerProduced),
    l1 := some l1v, l2 := some l2v, l3 := some l3v,
    v1 := some st.v1, v2 := some st.v2, v3 := some st.v3,
    i1 := some (jdiv (jsRound (jmul (some (jrOfInt 100)) (jdiv l1v st.v1))) (some (jrOfInt 100))),
    i2 := some (jdiv (jsRound (jmul (some (jrOfInt 100)) (jdiv l2v st.v2))) (some (jrOfInt 100))),
    i3 := some (jdiv (jsRound (jmul (some (jrOfInt 100)) (jdiv l3v st.v3))) (some (jrOfInt 100))),
    net := some (jdiv (jsRound (jmul (some (jrOfInt 10000))
      (jsub (jsub (jadd st.powerPeak st.powerOffpeak) st.powerPeakProduced)
        st.powerOffpeakProduced))) (some (jrOfInt 10000))),
    p2 := some st.powerPeak, p1 := some st.powerOffpeak,
    n2 := some st.powerPeakProduced, n1 := some st.powerOffpeakProduced,
    tm := some (jdiv (jsDateParseViaDate st.powerTm) (some (jrOfInt 1000))),
    gas := some st.gas,
    gtm := some (jdiv (jsDateParseViaDate st.gasTm) (some (jrOfInt 1000))) }

/-- `_getMeterReadings2` given the parsed `logs` subtree: walk the
cumulative and point logs, assemble every reading field, apply the
reversed-polarity fixup last. -/
def _getMeterReadings2 (reversed : Bool) (logs : DirectObjectsLogs) : Except Unit MeterReadings := do
  let st ← extractLogs logs
  let r := assemble2 st
  Except.ok (if reversed then swapPolarity r else r)

/-! ### The markup flattener

`flatten` works on the JavaScript values produced by xml-js: plain objects
(`obj`), strings (`vstr`), numbers (`vnum`, from `nativeType: true`) and
`undefined` (`undefVal`, which `flatten` itself writes into its output).
`jsFields` models `Object.keys` enumeration together with property access:
a string enumerates its characters under the keys `"0"`, `"1"`, …; a number
and `undefined` enumerate nothing. -/

/-- A JavaScript value as seen by `flatten`. -/
inductive JVal where
  | vnum (q : JRat)
  | vstr (s : String)
  | undefVal
  | obj (fields : List (String × JVal))
  deriving Repr

/-- `Object.keys(v)` with each key's value. -/
def jsFields (v : JVal) : List (String × JVal) :=
  match v with
  | .vnum _ => []
  | .vstr s => (s.toList.enum).map (fun p => (toString p.1, JVal.vstr (String.mk [p.2])))
  | .undefVal => []
  | .obj fs => fs

/-- `Object.prototype.hasOwnProperty.call(v, '_text')`. -/
def hasTextProp (v : JVal) : Bool :=
  (jsFields v).any (fun kv => kv.1 == "_text")

/-- `v._text` (simply `undefined` when there is no such own property). -/
def getTextProp (v : JVal) : JVal :=
  match (jsFields v).find? (fun kv => kv.1 == "_text") with
  | some kv => kv.2
  | none => .undefVal

/-- JavaScript property assignment `o[k] = v` on an insertion-ordered
record: an existing key keeps its position, a new key is appended. -/
def setKey (l : List (String × JVal)) (k : String) (v : JVal) : List (String × JVal) :=
  if l.any (fun kv => kv.1 == k) then
    l.map (fun kv => if kv.1 == k then (k, v) else kv)
  else l ++ [(k, v)]

/-- JavaScript `delete o[k]`. -/
def delKey (l : List (String × JVal)) (k : String) : List (String × JVal) :=
  l.filter (fun kv => kv.1 ≠ k)

/-- The body of `flatten`'s `forEach` over one key of the input. -/
def flattenStep (rec : JVal → JVal) (flat : List (String × JVal)) (kv : String × JVal) :
    List (String × JVal) :=
  let key := kv.1
  let v := kv.2
  if key = "_attributes" then
    (jsFields v).foldl (fun f av => setKey f av.1 av.2) flat
  else
    let flat := setKey flat key v
    if (jsFields v).length = 0 then
      let flat := setKey flat key .undefVal
      if key = "_text" then setKey (delKey flat key) "value" v else flat
    else if (jsFields v).length = 1 then
      if hasTextProp v then setKey flat key (getTextProp v)
      else setKey flat key (rec v)
    else setKey flat key (rec v)

/-- `flatten` with a structural fuel argument.  The fuel is only a Lean
termination device: every recursive call passes `lvl ≥ 1` for `level`, so
the depth guard `lvl > 10` always fires before 11 expansions and a start
fuel of 11 is never exhausted (the `0` branch is unreachable from
`flatten`). -/
def flattenF : Nat → JVal → Nat → JVal
  | 0, json, _ => json
  | fuel + 1, json, level =>
    let lvl := if level = 0 then 1 else level + 1
    if lvl > 10 then json
    else .obj ((jsFields json).foldl (flattenStep (fun v => flattenF fuel v lvl)) [])

/-- The `flatten` function: `level` is the `level` argument of the source
(`0` standing for the `undefined` of the outermost call — both are falsy,
so `lvl` becomes `1` either way). -/
def flatten (json : JVal) (level : Nat) : JVal :=
  flattenF 11 json level

/-! ### Session and orchestration

The transport helpers `_makeHttpRequest`/`_makeHttpsRequest` are external
I/O plumbing (spec §6): a transport call's outcome is either a network-level
failure (with an error string) or an `HttpResult`.  An operation receives
the outcomes of its transport calls as an oracle list (`Transport`) and
consumes one entry per call it performs, so the leftover list shows how
many transport calls were attempted.  The xml-js parse of an operation's
response body (an external library) is likewise passed in as a function
argument where the extraction itself is not under verification. -/

/-- Response headers, as far as the program inspects them:
`content-type`, `set-cookie`, and whether `JSON.stringify(headers)`
contains the substring `'Plugwise'` (the reboot acceptance test). -/
structure HttpHeaders where
  contentType : Option String := none
  setCookie : Option String := none
  vendorPlugwise : Bool := false
  deriving Repr, DecidableEq

/-- A completed HTTP exchange: status code (`none` when the stack reports
none) plus headers and body text. -/
structure HttpResult where
  statusCode : Option Nat := some 200
  headers : HttpHeaders := {}
  body : String := ""
  deriving Repr, DecidableEq

/-- The oracle of transport-call outcomes, consumed one per call. -/
abbrev Transport := List (Except String HttpResult)

/-- The errors an operation can reject with. -/
inductive ReqErr where
  | notLoggedIn
  | transport (e : String)
  | unauthorized
  | httpStatus (code : Nat)
  | invalidContentType (ct : Option String)
  | parseFail
  | rebootFailed
  deriving Repr, DecidableEq

/-- The session state of a `SmileP1` instance. -/
structure Session where
  id : Option String := none
  host : String := "connect.plugwise.net"
  port : Nat := 80
  timeout : Nat := 10000
  loggedIn : Bool := true
  reversed : Bool := false
  firmwareLevel : Option String := none
  meterMethod : Option Nat := none
  lastResponse : Option String := none
  cookie : Option String := none
  deriving Repr, DecidableEq

/-- The constructor's option bag (`undefined` members modelled `none`). -/
structure SessionOptions where
  id : Option String := none
  host : Option String := none
  port : Option Nat := none
  timeout : Option Nat := none
  reversed : Option Bool := none
  meterMethod : Option Nat := none
  deriving Repr, DecidableEq

/-- The `SmileP1` constructor: note `loggedIn` starts `true`. -/
def mkSession (opts : SessionOptions) : Session :=
  { id := opts.id,
    host := opts.host.getD "connect.plugwise.net",
    port := opts.port.getD 80,
    timeout := opts.timeout.getD 10000,
    loggedIn := true,
    reversed := opts.reversed.getD false,
    firmwareLevel := none,
    meterMethod := opts.meterMethod,
    lastResponse := none,
    cookie := none }

/-- JavaScript truthiness of an optional numeric status code. -/
def jsTruthyCode (c : Option Nat) : Bool :=
  match c with
  | none => false
  | some n => n ≠ 0

/-- The `/^text\//` content-type test. -/
def isTextContentType (ct : Option String) : Bool :=
  match ct with
  | some c => startsWithL "text/".toList c.toList
  | none => false

/-- `_makeRequest`: the not-logged-in guard (bypassed by `force`), then one
transport call; record `lastResponse` and `cookie`; reject on 401, on any
other truthy non-200 status, and on a non-`text/*` content type; resolve
with the body.  The session's `loggedIn` flag is never written. -/
def _makeRequest (s : Session) (force : Bool) (tr : Transport) :
    Session × Transport × Except ReqErr String :=
  if !s.loggedIn && !force then (s, tr, Except.error .notLoggedIn)
  else
    match tr with
    | [] => (s, [], Except.error (.transport "no transport outcome supplied"))
    | Except.error e :: rest =>
      ({ s with lastResponse := some e }, rest, Except.error (.transport e))
    | Except.ok result :: rest =>
      let s := { s with lastResponse := some result.body }
      let s := match result.headers.setCookie with
        | some c => { s with cookie := some c }
        | none => s
      if result.statusCode = some 401 then
        ({ s with lastResponse := some "401" }, rest, Except.error .unauthorized)
      else if result.statusCode ≠ some 200 && jsTruthyCode result.statusCode then
        ({ s with lastResponse := some (toString (result.statusCode.getD 0)) }, rest,
          Except.error (.httpStatus (result.statusCode.getD 0)))
      else if isTextContentType result.headers.contentType then
        (s, rest, Except.ok result.body)
      else (s, rest, Except.error (.invalidContentType result.headers.contentType))

/-- `getFirmwareLevel`: a forced probe of the v3 gateway path; if its body
has no `<firmware_version>` tag, a forced probe of the v2 status path for a
`<version>` tag; resolves with the (possibly unchanged) stored level. -/
def getFirmwareLevel (s : Session) (tr : Transport) :
    Session × Transport × Except ReqErr (Option String) :=
  match _makeRequest s true tr with
  | (s1, tr1, Except.error e) => (s1, tr1, Except.error e)
  | (s1, tr1, Except.ok result) =>
    match regexExec regexFwLevel3 result with
    | some fw => ({ s1 with firmwareLevel := some fw }, tr1, Except.ok (some fw))
    | none =>
      match _makeRequest s1 true tr1 with
      | (s2, tr2, Except.error e) => (s2, tr2, Except.error e)
      | (s2, tr2, Except.ok result2) =>
        match regexExec regexFwLevel2 result2 with
        | some fw2 => ({ s2 with firmwareLevel := some fw2 }, tr2, Except.ok (some fw2))
        | none => (s2, tr2, Except.ok s2.firmwareLevel)

/-- The JavaScript comparison `str[0] <= 2` for a firmware string: the
single-character string (or `undefined` when the string is empty) is
converted with `ToNumber`; `NaN` compares false. -/
def jsCharLeq2 (c : Option Char) : Bool :=
  match c with
  | none => false
  | some ch =>
    match jsNumber (String.mk [ch]) with
    | none => false
    | some q => q.num ≤ 2 * q.den

/-- The JavaScript comparison `str[0] >= 3` used by `getStatus`. -/
def jsCharGeq3 (c : Option Char) : Bool :=
  match c with
  | none => false
  | some ch =>
    match jsNumber (String.mk [ch]) with
    | none => false
    | some q => 3 * q.den ≤ q.num

/-- The strategy-selection rule of `_getMeterMethod`, applied to the
detected firmware level: leading character `<= 2` picks method 1, any
other string picks method 2, and no string leaves the selector as it was. -/
def meterMethodFromFw (fw : Option String) (current : Option Nat) : Option Nat :=
  match fw with
  | some f => some (if jsCharLeq2 f.toList.head? then 1 else 2)
  | none => current

/-- `_getMeterMethod`: detect the firmware level, then apply the selection
rule to the freshly stored `firmwareLevel`. -/
def _getMeterMethod (s : Session) (tr : Transport) :
    Session × Transport × Except ReqErr (Option Nat) :=
  match getFirmwareLevel s tr with
  | (s1, tr1, Except.error e) => (s1, tr1, Except.error e)
  | (s1, tr1, Except.ok _) =>
    let s2 := { s1 with meterMethod := meterMethodFromFw s1.firmwareLevel s1.meterMethod }
    (s2, tr1, Except.ok s2.meterMethod)

/-- JavaScript falsiness of the `meterMethod` selector. -/
def jsFalsyMethod (m : Option Nat) : Bool :=
  match m with
  | none => true
  | some n => n = 0

/-- The strategy-A branch of `getMeterReadings`: one non-forced request to
the modules path, then `_getMeterReadings1` on its body. -/
def strat1Branch (s : Session) (tr : Transport) :
    Session × Transport × Except ReqErr MeterReadings :=
  match _makeRequest s false tr with
  | (s2, tr2, Except.error e) => (s2, tr2, Except.error e)
  | (s2, tr2, Except.ok body) =>
    match _getMeterReadings1 s2.reversed body with
    | Except.error _ => (s2, tr2, Except.error .parseFail)
    | Except.ok r => (s2, tr2, Except.ok r)

/-- The strategy-B branch of `getMeterReadings`: one non-forced request to
the direct-objects path, the xml-js parse (external, passed in), then
`_getMeterReadings2`. -/
def strat2Branch (s : Session) (tr : Transport)
    (parse : String → Except Unit DirectObjectsLogs) :
    Session × Transport × Except ReqErr MeterReadings :=
  match _makeRequest s false tr with
  | (s2, tr2, Except.error e) => (s2, tr2, Except.error e)
  | (s2, tr2, Except.ok body) =>
    match parse body with
    | Except.error _ => (s2, tr2, Except.error .parseFail)
    | Except.ok logs =>
      match _getMeterReadings2 s2.reversed logs with
      | Except.error _ => (s2, tr2, Except.error .parseFail)
      | Except.ok r => (s2, tr2, Except.ok r)

/-- `getMeterReadings`: run detection only when no strategy is set, then
dispatch — method 1 to the strategy-A extractor, anything else (including a
still-unset selector) to the strategy-B extractor, which the source
comments call "method 2 as default". -/
def getMeterReadings (s : Session) (tr : Transport)
    (parse : String → Except Unit DirectObjectsLogs) :
    Session × Transport × Except ReqErr MeterReadings :=
  match (if jsFalsyMethod s.meterMethod then _getMeterMethod s tr
         else (s, tr, Except.ok s.meterMethod)) with
  | (s1, tr1, Except.error e) => (s1, tr1, Except.error e)
  | (s1, tr1, Except.ok _) =>
    if s1.meterMethod = some 1 then strat1Branch s1 tr1
    else strat2Branch s1 tr1 parse

/-- The tail of `login` after a host is settled: detect firmware; only
success sets `loggedIn := true`, a failure sets `loggedIn := false`. -/
def loginFinish (s2 : Session) (tr : Transport) : Session × Transport × Except ReqErr Bool :=
  match getFirmwareLevel s2 tr with
  | (s3, tr3, Except.error e) => ({ s3 with loggedIn := false }, tr3, Except.error e)
  | (s3, tr3, Except.ok _) => ({ s3 with loggedIn := true }, tr3, Except.ok true)

/-- `login`: apply option overrides, discover when no explicit host is
known (the outcome of that outbound HTTPS lookup is the `discovery`
argument), then detect firmware; only success sets `loggedIn := true`,
any failure sets `loggedIn := false`. -/
def login (s : Session) (opts : SessionOptions) (discovery : Except String String)
    (tr : Transport) : Session × Transport × Except ReqErr Bool :=
  let s1 := { s with
    id := opts.id.orElse (fun _ => s.id),
    host := opts.host.getD s.host,
    port := opts.port.getD s.port,
    timeout := opts.timeout.getD s.timeout,
    reversed := opts.reversed.getD s.reversed }
  if s1.host = "" || s1.host = "connect.plugwise.net" then
    match discovery with
    | Except.error e => ({ s1 with loggedIn := false }, tr, Except.error (.transport e))
    | Except.ok ip => loginFinish { s1 with host := ip } tr
  else loginFinish s1 tr

/-- `discover` as a standalone operation: on success it stores the
device's reported LAN/WiFi address as the host.  It never touches
`loggedIn`. -/
def discover (s : Session) (res : Except String String) : Session × Except ReqErr String :=
  match res with
  | Except.error e => (s, Except.error (.transport e))
  | Except.ok ip => ({ s with host := ip }, Except.ok ip)

/-- `reboot`: one POST through the raw transport helper; acceptance is a
`Plugwise` vendor header, and only an accepted reboot clears `loggedIn`. -/
def reboot (s : Session) (tres : Except String HttpResult) :
    Session × Except ReqErr Bool :=
  match tres with
  | Except.error e => ({ s with lastResponse := some e }, Except.error (.transport e))
  | Except.ok r =>
    let s1 := { s with lastResponse := some r.body }
    if r.headers.vendorPlugwise then ({ s1 with loggedIn := false }, Except.ok true)
    else (s1, Except.error .rebootFailed)

/-- `_getStatusV2`: non-forced request, xml-js parse (external, passed
in), then the two-level `_text` reshaping. -/
def statusV2Reshape (status : JVal) : JVal :=
  .obj ((jsFields status).map (fun kv =>
    (kv.1, JVal.obj ((jsFields kv.2).map (fun sv => (sv.1, getTextProp sv.2))))))

def _getStatusV2 (s : Session) (tr : Transport) (parse : String → Except Unit JVal) :
    Session × Transport × Except ReqErr JVal :=
  match _makeRequest s false tr with
  | (s1, tr1, Except.error e) => (s1, tr1, Except.error e)
  | (s1, tr1, Except.ok body) =>
    match parse body with
    | Except.error _ => (s1, tr1, Except.error .parseFail)
    | Except.ok status => (s1, tr1, Except.ok (statusV2Reshape status))

/-- `_getStatusV3`: forced request, xml-js parse (external, passed in) to
the gateway subtree, then `flatten`. -/
def _getStatusV3 (s : Session) (tr : Transport) (parse : String → Except Unit JVal) :
    Session × Transport × Except ReqErr JVal :=
  match _makeRequest s true tr with
  | (s1, tr1, Except.error e) => (s1, tr1, Except.error e)
  | (s1, tr1, Except.ok body) =>
    match parse body with
    | Except.error _ => (s1, tr1, Except.error .parseFail)
    | Except.ok raw => (s1, tr1, Except.ok (flatten raw 0))

/-- `getStatus`: with a known firmware string dispatch on its leading
character; with no firmware string resolve an empty object without any
transport call. -/
def getStatus (s : Session) (tr : Transport) (parse2 parse3 : String → Except Unit JVal) :
    Session × Transport × Except ReqErr JVal :=
  match s.firmwareLevel with
  | some fw =>
    if jsCharGeq3 fw.toList.head? then _getStatusV3 s tr parse3
    else _getStatusV2 s tr parse2
  | none => (s, tr, Except.ok (.obj []))

/-- `getLogs`: non-forced request to the parameterised logs path, xml-js
parse (external, passed in) to the logs subtree, then `flatten`. -/
def getLogs (s : Session) (tr : Transport) (parse : String → Except Unit JVal) :
    Session × Transport × Except ReqErr JVal :=
  match _makeRequest s false tr with
  | (s1, tr1, Except.error e) => (s1, tr1, Except.error e)
  | (s1, tr1, Except.ok body) =>
    match parse body with
    | Except.error _ => (s1, tr1, Except.error .parseFail)
    | Except.ok raw => (s1, tr1, Except.ok (flatten raw 0))

/-- `getInterfaceStatus`: non-forced request, then parse / `flatten` /
keyed reshape, none of which touch the session (abstracted as `post`). -/
def getInterfaceStatus (s : Session) (tr : Transport) (post : String → Except Unit JVal) :
    Session × Transport × Except ReqErr JVal :=
  match _makeRequest s false tr with
  | (s1, tr1, Except.error e) => (s1, tr1, Except.error e)
  | (s1, tr1, Except.ok body) =>
    match post body with
    | Except.error _ => (s1, tr1, Except.error .parseFail)
    | Except.ok info => (s1, tr1, Except.ok info)

/-- `getWifiScan`: non-forced request (with a 15 s timeout), then parse /
`flatten` / array reshape, none of which touch the session. -/
def getWifiScan (s : Session) (tr : Transport) (post : String → Except Unit JVal) :
    Session × Transport × Except ReqErr JVal :=
  match _makeRequest s false tr with
  | (s1, tr1, Except.error e) => (s1, tr1, Except.error e)
  | (s1, tr1, Except.ok body) =>
    match post body with
    | Except.error _ => (s1, tr1, Except.error .parseFail)
    | Except.ok info => (s1, tr1, Except.ok info)

/-! ### Shared helper lemmas and concrete fixtures -/

theorem jadd_comm (a b : JNum) : jadd a b = jadd b a := by
  cases a with
  | none => cases b <;> rfl
  | some x =>
    cases b with
    | none => rfl
    | some y =>
      show some (jrAdd x y) = some (jrAdd y x)
      simp only [jrAdd, Option.some.injEq, JRat.mk.injEq]
      exact ⟨by ring, by ring⟩

theorem jsub_jsub (x c d : JNum) : jsub (jsub x c) d = jsub x (jadd c d) := by
  cases x with
  | none => cases c <;> cases d <;> rfl
  | some a =>
    cases c with
    | none => cases d <;> rfl
    | some b =>
      cases d with
      | none => rfl
      | some e =>
        show some (jrSub (jrSub a b) e) = some (jrSub a (jrAdd b e))
        simp only [jrSub, jrAdd, Option.some.injEq, JRat.mk.injEq]
        exact ⟨by ring, by ring⟩

theorem jdiv_none_right (x : JNum) : jdiv x none = none := by
  cases x <;> rfl

theorem jmul_none_right (x : JNum) : jmul x none = none := by
  cases x <;> rfl

instance {ε α : Type} [DecidableEq ε] [DecidableEq α] : DecidableEq (Except ε α) :=
  fun x y =>
    match x, y with
    | Except.ok a, Except.ok b =>
      if h : a = b then isTrue (by rw [h]) else isFalse (by simp [h])
    | Except.ok _, Except.error _ => isFalse (by simp)
    | Except.error _, Except.ok _ => isFalse (by simp)
    | Except.error a, Except.error b =>
      if h : a = b then isTrue (by rw [h]) else isFalse (by simp [h])

/-- A successful `text/xml` transport outcome with the given body. -/
def respond (body : String) : Except String HttpResult :=
  Except.ok { statusCode := some 200, headers := { contentType := some "text/xml" }, body := body }

/-- A session fresh out of the constructor with no options. -/
def sess0 : Session := mkSession {}

/-- `Except.ok` test, for stating how `loggedIn` tracks an outcome. -/
def isOkB {ε α : Type} (e : Except ε α) : Bool :=
  match e with
  | Except.ok _ => true
  | Except.error _ => false

/-! ### C2: strategy selection from the firmware string -/

/-- C2.  `_getMeterMethod` picks method 1 exactly when the leading
character of the detected firmware string compares `<= 2` under the
JavaScript comparison, otherwise method 2, and leaves the selector
untouched when no firmware string is known; in particular a device
reporting `2.1.13` gets strategy A, one reporting `3.3.6` gets strategy B,
and a device whose probes carry no version tag leaves the selector unset. -/
theorem c2_strategy_selection :
    (∀ fw current, meterMethodFromFw (some fw) current
        = some (if jsCharLeq2 fw.toList.head? then 1 else 2)) ∧
    (∀ current, meterMethodFromFw none current = current) ∧
    ((_getMeterMethod sess0 [respond "<firmware_version>2.1.13</firmware_version>"]).1.meterMethod
        = some 1) ∧
    ((_getMeterMethod sess0 [respond "<firmware_version>3.3.6</firmware_version>"]).1.meterMethod
        = some 2) ∧
    ((_getMeterMethod sess0 [respond "<gateway/>", respond "<status/>"]).1.meterMethod
        = none) := by
  refine ⟨fun fw current => rfl, fun current => rfl, ?_, ?_, ?_⟩ <;> rfl

/-! ### C3: dispatch after failed detection -/

/-- The undetectable-firmware transcript: both probes succeed but carry no
version tag, then the data request for the extractor that will run anyway. -/
def c3Tr : Transport := [respond "<gateway/>", respond "<status/>", respond "<modules/>"]

/-- An (empty) parsed direct-objects subtree. -/
def c3Logs : DirectObjectsLogs := { cumulative_log := [], point_log := [] }

/-- The external xml-js parse for the strategy-B data body. -/
def c3Parse : String → Except Unit DirectObjectsLogs := fun _ => Except.ok c3Logs

/-- What the all-defaults strategy-B extraction returns. -/
def c3Readings : MeterReadings :=
  { pwr := some (some ⟨0, 1⟩), l1 := some none, l2 := some none, l3 := some none,
    v1 := some none, v2 := some none, v3 := some none,
    i1 := some none, i2 := some none, i3 := some none,
    net := some (some ⟨0, 10000⟩), p2 := some (some ⟨0, 1⟩), p1 := some (some ⟨0, 1⟩),
    n2 := some (some ⟨0, 1⟩), n1 := some (some ⟨0, 1⟩),
    tm := some none, gas := some (some ⟨0, 1⟩), gtm := some none }

/-- C3, counterexample.  On a fresh session whose firmware cannot be
detected (no version tag in either probe), `getMeterReadings` leaves both
the firmware level and the strategy selector unset and nevertheless
resolves with a strategy-B reading — the code silently defaults to
strategy B instead of refusing to proceed with an unconfirmed extractor. -/
theorem c3_counterexample :
    (getMeterReadings sess0 c3Tr c3Parse).1.firmwareLevel = none ∧
    (getMeterReadings sess0 c3Tr c3Parse).1.meterMethod = none ∧
    (getMeterReadings sess0 c3Tr c3Parse).2.2 = Except.ok c3Readings ∧
    _getMeterReadings2 false c3Logs = Except.ok c3Readings := by
  refine ⟨rfl, rfl, ?_, ?_⟩ <;> rfl

/-- C3, amended.  When no strategy is set, `getMeterReadings` runs
detection and then dispatches on the updated selector, with strategy B as
the default — an unset selector after failed detection still proceeds,
with the strategy-B extractor; a caller-forced strategy always takes
precedence: detection is skipped entirely and the forced selector alone
decides the extractor. -/
theorem c3_dispatch :
    (∀ s tr parse s1 tr1 mm, jsFalsyMethod s.meterMethod = true →
        _getMeterMethod s tr = (s1, tr1, Except.ok mm) →
        getMeterReadings s tr parse
          = (if s1.meterMethod = some 1 then strat1Branch s1 tr1
             else strat2Branch s1 tr1 parse)) ∧
    (∀ s tr parse, jsFalsyMethod s.meterMethod = false →
        getMeterReadings s tr parse
          = (if s.meterMethod = some 1 then strat1Branch s tr
             else strat2Branch s tr parse)) := by
  constructor
  · intro s tr parse s1 tr1 mm hfal hdet
    simp only [getMeterReadings, hfal, if_pos, hdet]
  · intro s tr parse hfal
    simp only [getMeterReadings, hfal, Bool.false_eq_true, if_neg, not_false_iff]

/-- A session with a caller-forced strategy-A selector. -/
def c3Forced : Session := mkSession { meterMethod := some 1 }

/-- C3, witness: both branches of `c3_dispatch` applied at concrete
inputs — the forced-selector session skips detection and dispatches on the
forced value, and the undetectable-firmware session dispatches through the
post-detection state. -/
theorem c3_dispatch_witness :
    getMeterReadings c3Forced c3Tr c3Parse
      = (if c3Forced.meterMethod = some 1 then strat1Branch c3Forced c3Tr
         else strat2Branch c3Forced c3Tr c3Parse) ∧
    getMeterReadings sess0 c3Tr c3Parse
      = (if ({ sess0 with lastResponse := some "<status/>" } : Session).meterMethod = some 1
         then strat1Branch { sess0 with lastResponse := some "<status/>" } [respond "<modules/>"]
         else strat2Branch { sess0 with lastResponse := some "<status/>" } [respond "<modules/>"] c3Parse) :=
  ⟨c3_dispatch.2 c3Forced c3Tr c3Parse (by rfl),
   c3_dispatch.1 sess0 c3Tr c3Parse { sess0 with lastResponse := some "<status/>" }
     [respond "<modules/>"] none (by rfl) (by rfl)⟩

/-! ### C5: the reversed-polarity fixup -/

/-- A strategy-A body carrying only the gas signal (the power-side
regexes do not match, so no tariff counter is extracted). -/
def c5Input : String :=
  "<measurement log_date='2017-03-27T16:00:00+02:00' unit='m3' directionality='consumed'>4977.361</measurement>"

/-- What strategy A returns for `c5Input` without the reversed flag:
all four tariff counters absent. -/
def c5RecFwd : MeterReadings :=
  { gas := some (some ⟨4977361, 1000⟩),
    gtm := some (some ⟨1490623200000, 1000⟩) }

/-- What strategy A returns for `c5Input` with the reversed flag: the
swap's assignments have materialised all four tariff counters as
present-with-undefined. -/
def c5RecRev : MeterReadings :=
  { p2 := some none, p1 := some none, n2 := some none, n1 := some none,
    gas := some (some ⟨4977361, 1000⟩),
    gtm := some (some ⟨1490623200000, 1000⟩) }

/-- The unreversed gas-only record with its tariff-counter pairs
exchanged and nothing else changed — what the spec's wording predicts
for the reversed run on `c5Input`. -/
def c5Exchanged : MeterReadings :=
  { c5RecFwd with p1 := c5RecFwd.p2, p2 := c5RecFwd.p1,
                  n1 := c5RecFwd.n2, n2 := c5RecFwd.n1 }

/-- C5, counterexample.  On a gas-only response the unreversed record has
all four tariff counters absent, so "`p1` and `p2` are exchanged and `n1`
and `n2` are exchanged; all other fields unchanged" would leave them
absent — but the source's `readings.p1 = tmp.p2` assignments create the
properties even when the copied value is `undefined`, so the reversed
record carries all four counters present-with-undefined and is not the
pairwise-exchanged unreversed record. -/
theorem c5_counterexample :
    _getMeterReadings1 false c5Input = Except.ok c5RecFwd ∧
    _getMeterReadings1 true c5Input = Except.ok c5RecRev ∧
    c5RecFwd.p2 = none ∧ c5RecRev.p1 = some none ∧
    c5RecRev.p1 ≠ c5RecFwd.p2 ∧ c5RecRev ≠ c5Exchanged := by
  refine ⟨by decide, by decide, by decide, by decide, by decide, by decide⟩

/-- C5, amended.  For both extractors, running with the reversed flag set
returns exactly the unreversed record transformed by the source's final
fixup: each of `p1`/`p2` (and `n1`/`n2`) is assigned the value read from
the other — a read-and-assign that materialises an absent counter as
present-with-undefined — and every other field (`pwr`, `net`, `tm`,
`gas`, `gtm`, per-phase) is untouched, so `net` reflects the pre-swap
assignment; whenever all four counters are present (always in strategy B,
and in strategy A whenever the power side matched), this fixup is exactly
the claimed pairwise exchange `p1` ↔ `p2`, `n1` ↔ `n2`. -/
theorem c5_reversed_swap :
    (∀ result, _getMeterReadings1 true result
        = Except.map swapPolarity (_getMeterReadings1 false result)) ∧
    (∀ logs, _getMeterReadings2 true logs
        = Except.map swapPolarity (_getMeterReadings2 false logs)) ∧
    (∀ r, (swapPolarity r).p1 = some r.p2.join ∧ (swapPolarity r).p2 = some r.p1.join ∧
      (swapPolarity r).n1 = some r.n2.join ∧ (swapPolarity r).n2 = some r.n1.join ∧
      (swapPolarity r).pwr = r.pwr ∧ (swapPolarity r).net = r.net ∧
      (swapPolarity r).tm = r.tm ∧ (swapPolarity r).gas = r.gas ∧
      (swapPolarity r).gtm = r.gtm ∧ (swapPolarity r).l1 = r.l1 ∧
      (swapPolarity r).l2 = r.l2 ∧ (swapPolarity r).l3 = r.l3 ∧
      (swapPolarity r).v1 = r.v1 ∧ (swapPolarity r).v2 = r.v2 ∧
      (swapPolarity r).v3 = r.v3 ∧ (swapPolarity r).i1 = r.i1 ∧
      (swapPolarity r).i2 = r.i2 ∧ (swapPolarity r).i3 = r.i3) ∧
    (∀ r a b c d, r.p1 = some a → r.p2 = some b → r.n1 = some c → r.n2 = some d →
      (swapPolarity r).p1 = r.p2 ∧ (swapPolarity r).p2 = r.p1 ∧
      (swapPolarity r).n1 = r.n2 ∧ (swapPolarity r).n2 = r.n1) := by
  refine ⟨?_, ?_, ?_, ?_⟩
  · intro result
    simp only [_getMeterReadings1]
    cases jsFalsy (rawReadings1 result).tm && jsFalsy (rawReadings1 result).gtm <;>
      simp [Except.map]
  · intro logs
    simp only [_getMeterReadings2, bind, Except.bind]
    cases extractLogs logs <;> simp [Except.map]
  · intro r
    exact ⟨rfl, rfl, rfl, rfl, rfl, rfl, rfl, rfl, rfl, rfl, rfl, rfl, rfl, rfl,
      rfl, rfl, rfl, rfl⟩
  · intro r a b c d h1 h2 h3 h4
    refine ⟨?_, ?_, ?_, ?_⟩ <;> simp [swapPolarity, h1, h2, h3, h4, Option.join]

/-- C5, witness: the pairwise-exchange conjunct of `c5_reversed_swap`
applied to a concrete record whose four counters are present, all
hypotheses discharged by evaluation. -/
theorem c5_reversed_swap_witness :
    (swapPolarity c5RecRev).p1 = c5RecRev.p2 ∧ (swapPolarity c5RecRev).p2 = c5RecRev.p1 ∧
    (swapPolarity c5RecRev).n1 = c5RecRev.n2 ∧ (swapPolarity c5RecRev).n2 = c5RecRev.n1 :=
  c5_reversed_swap.2.2.2 c5RecRev none none none none
    (by decide) (by decide) (by decide) (by decide)

/-! ### Inversion lemmas for the two extractors -/

theorem gmr1_ok (rev : Bool) (result : String) (r : MeterReadings)
    (h : _getMeterReadings1 rev result = Except.ok r) :
    r = if rev then swapPolarity (rawReadings1 result) else rawReadings1 result := by
  by_cases hc : (jsFalsy (rawReadings1 result).tm && jsFalsy (rawReadings1 result).gtm) = true
  · simp only [_getMeterReadings1, hc, if_true] at h
    cases h
  · simp only [_getMeterReadings1] at h
    rw [if_neg hc] at h
    injection h with h2
    exact h2.symm

theorem gmr2_ok (rev : Bool) (logs : DirectObjectsLogs) (r : MeterReadings)
    (h : _getMeterReadings2 rev logs = Except.ok r) :
    ∃ st, extractLogs logs = Except.ok st ∧
      r = if rev then swapPolarity (assemble2 st) else assemble2 st := by
  unfold _getMeterReadings2 at h
  cases hst : extractLogs logs with
  | error e => rw [hst] at h; cases h
  | ok st =>
    rw [hst] at h
    simp only [bind, Except.bind] at h
    injection h with h2
    exact ⟨st, rfl, h2.symm⟩

/-! ### C1: the net and pwr invariants -/

/-- The specified shape of `net`: present exactly when the four tariff
counters are present, and then the 4-decimal-rounded
`(peak + offpeak consumed) - (peak + offpeak produced)`. -/
def netFormula (p2 p1 n2 n1 : Option JNum) : Option JNum :=
  match p2, p1, n2, n1 with
  | some a, some b, some c, some d => some (jround4 (jsub (jadd a b) (jadd c d)))
  | _, _, _, _ => none

/-- C1.  Every record either extractor returns satisfies
`net = round4((p2 + p1) - (n2 + n1))` over the tariff counters as
extracted from the response (the pre-swap record), and — whenever the
power side actually matched, so the record's own counters carry the
extracted values (always the case in strategy B) — equally over the
returned record's own `p2`/`p1`/`n2`/`n1`, also under the
reversed-polarity swap since the sums are symmetric; `pwr` is exactly
instantaneous consumed minus produced power as extracted. -/
theorem c1_net_pwr :
    (∀ rev result r, _getMeterReadings1 rev result = Except.ok r →
        r.net = netFormula (rawReadings1 result).p2 (rawReadings1 result).p1
          (rawReadings1 result).n2 (rawReadings1 result).n1 ∧
        ((powerPart result).isSome = true →
          r.net = netFormula r.p2 r.p1 r.n2 r.n1) ∧
        r.pwr = (powerPart result).map (fun v => jsub v.1 v.2.1)) ∧
    (∀ rev logs r, _getMeterReadings2 rev logs = Except.ok r →
        ∃ st, extractLogs logs = Except.ok st ∧
          r.net = some (jround4 (jsub (jadd st.powerPeak st.powerOffpeak)
            (jadd st.powerPeakProduced st.powerOffpeakProduced))) ∧
          r.net = netFormula r.p2 r.p1 r.n2 r.n1 ∧
          r.pwr = some (jsub st.measurePower st.measurePowerProduced)) := by
  constructor
  · intro rev result r h
    have hr := gmr1_ok rev result r h
    subst hr
    rcases hp : powerPart result with _ | ⟨mp, mpp, pp, po, ppp, pop, ptm⟩ <;>
      rcases hg : gasPart result with _ | ⟨g, gt⟩ <;>
        cases rev <;>
          simp [rawReadings1, hp, hg, swapPolarity, netFormula, jround4, jsub_jsub,
            jadd_comm, Option.join]
  · intro rev logs r h
    obtain ⟨st, hst, hr⟩ := gmr2_ok rev logs r h
    subst hr
    refine ⟨st, hst, ?_, ?_, ?_⟩ <;>
      cases rev <;>
        simp [assemble2, swapPolarity, netFormula, jround4, jsub_jsub, jadd_comm,
          Option.join]

/-- The strategy-A modules body from the source's own sample document
(single-quoted, as the device serves it). -/
def sampleA : String :=
  "<measurement log_date='2017-03-27T16:36:55+02:00' unit='W' directionality='produced'>0.000</measurement>\n" ++
  "<measurement log_date='2017-03-27T16:36:55+02:00' unit='W' directionality='consumed'>1130.000</measurement>\n" ++
  "<measurement log_date='2017-03-27T16:35:00+02:00' unit='Wh' directionality='produced' tariff_indicator='nl_offpeak'>1100755.000</measurement>\n" ++
  "<measurement log_date='2017-03-27T16:35:00+02:00' unit='Wh' directionality='produced' tariff_indicator='nl_peak'>2979339.000</measurement>\n" ++
  "<measurement log_date='2017-03-27T16:35:00+02:00' unit='Wh' directionality='consumed' tariff_indicator='nl_offpeak'>10694674.000</measurement>\n" ++
  "<measurement log_date='2017-03-27T16:35:00+02:00' unit='Wh' directionality='consumed' tariff_indicator='nl_peak'>7173526.000</measurement>\n" ++
  "<measurement log_date='2017-03-27T16:00:00+02:00' unit='m3' directionality='consumed'>4977.361</measurement>"

/-- What strategy A extracts from `sampleA`: `pwr` 1130 W, counters
7173.526 / 10694.674 / 2979.339 / 1100.755 kWh, `net` 13788.106 kWh. -/
def c1Rec : MeterReadings :=
  { pwr := some (some ⟨1130000000, 1000000⟩),
    net := some (some ⟨137881060, 10000⟩),
    p2 := some (some ⟨7173526000, 1000000⟩),
    p1 := some (some ⟨10694674000, 1000000⟩),
    n2 := some (some ⟨2979339000, 1000000⟩),
    n1 := some (some ⟨1100755000, 1000000⟩),
    tm := some (some ⟨1490625300000, 1000⟩),
    gas := some (some ⟨4977361, 1000⟩),
    gtm := some (some ⟨1490623200000, 1000⟩) }

/-- A parsed strategy-B subtree with tariff-split cumulative electricity,
a gas entry and a tariff-split present-power entry. -/
def c1Logs : DirectObjectsLogs :=
  { cumulative_log := [
      { type := "electricity_consumed", updated_date := some "2019-02-03T12:00:00+01:00",
        measurement := MNode.arr [
          { tariff_indicator := some "nl_peak", text := some (jrOfInt 7173526) },
          { tariff_indicator := some "nl_offpeak", text := some (jrOfInt 10694674) }] },
      { type := "electricity_produced",
        measurement := MNode.arr [
          { tariff := some "nl_peak", text := some (jrOfInt 2979339) },
          { tariff := some "nl_offpeak", text := some (jrOfInt 1100755) }] },
      { type := "gas_consumed", updated_date := some "2019-02-03T12:00:00+01:00",
        measurement := MNode.single { text := some ⟨4977361, 1000⟩ } }],
    point_log := [
      { type := "electricity_consumed",
        measurement := MNode.arr [{ text := some (jrOfInt 1000) }, { text := some (jrOfInt 130) }] },
      { type := "electricity_produced",
        measurement := MNode.single { text := some (jrOfInt 0) } }] }

/-- The walk state after `extractLogs c1Logs`. -/
def c1St : ExtractState2 :=
  { measurePower := some ⟨1130, 1⟩,
    measurePowerProduced := some ⟨0, 1⟩,
    powerPeak := some ⟨7173526, 1000⟩,
    powerOffpeak := some ⟨10694674, 1000⟩,
    powerPeakProduced := some ⟨2979339, 1000⟩,
    powerOffpeakProduced := some ⟨1100755, 1000⟩,
    powerTm := "2019-02-03T12:00:00+01:00",
    gas := some ⟨4977361, 1000⟩,
    gasTm := "2019-02-03T12:00:00+01:00" }

/-- What strategy B extracts from `c1Logs`. -/
def c1RecB : MeterReadings :=
  { pwr := some (some ⟨1130, 1⟩),
    l1 := some none, l2 := some none, l3 := some none,
    v1 := some none, v2 := some none, v3 := some none,
    i1 := some none, i2 := some none, i3 := some none,
    net := some (some ⟨137881060, 10000⟩),
    p2 := some (some ⟨7173526, 1000⟩),
    p1 := some (some ⟨10694674, 1000⟩),
    n2 := some (some ⟨2979339, 1000⟩),
    n1 := some (some ⟨1100755, 1000⟩),
    tm := some (some ⟨1549191600000, 1000⟩),
    gas := some (some ⟨4977361, 1000⟩),
    gtm := some (some ⟨1549191600000, 1000⟩) }

/-- C1, witness: both halves of `c1_net_pwr` applied to concrete
responses, with all hypotheses discharged by evaluation. -/
theorem c1_net_pwr_witness :
    _getMeterReadings1 false sampleA = Except.ok c1Rec ∧
    c1Rec.net = netFormula (rawReadings1 sampleA).p2 (rawReadings1 sampleA).p1
      (rawReadings1 sampleA).n2 (rawReadings1 sampleA).n1 ∧
    c1Rec.net = netFormula c1Rec.p2 c1Rec.p1 c1Rec.n2 c1Rec.n1 ∧
    c1Rec.pwr = (powerPart sampleA).map (fun v => jsub v.1 v.2.1) ∧
    _getMeterReadings2 false c1Logs = Except.ok c1RecB ∧
    c1RecB.net = some (jround4 (jsub (jadd c1St.powerPeak c1St.powerOffpeak)
      (jadd c1St.powerPeakProduced c1St.powerOffpeakProduced))) ∧
    c1RecB.net = netFormula c1RecB.p2 c1RecB.p1 c1RecB.n2 c1RecB.n1 ∧
    c1RecB.pwr = some (jsub c1St.measurePower c1St.measurePowerProduced) := by
  have h1 : _getMeterReadings1 false sampleA = Except.ok c1Rec := by decide
  have h2 := c1_net_pwr.1 false sampleA c1Rec h1
  have h3 : _getMeterReadings2 false c1Logs = Except.ok c1RecB := by decide
  obtain ⟨st, hst, hnet, hnetOwn, hpwr⟩ := c1_net_pwr.2 false c1Logs c1RecB h3
  have hst2 : extractLogs c1Logs = Except.ok c1St := by decide
  rw [hst2] at hst
  injection hst with hst3
  rw [← hst3] at hnet hpwr
  exact ⟨h1, h2.1, h2.2.1 (by decide), h2.2.2, h3, hnet, hnetOwn, hpwr⟩

/-! ### C4: absent versus defaulted fields -/

/-- A strategy-B subtree with electricity but no `gas_consumed`
cumulative log. -/
def c4Logs : DirectObjectsLogs :=
  { cumulative_log := [
      { type := "electricity_consumed", updated_date := some "2019-02-03T12:00:00+01:00",
        measurement := MNode.arr [
          { tariff_indicator := some "nl_peak", text := some (jrOfInt 200) },
          { tariff_indicator := some "nl_offpeak", text := some (jrOfInt 300) }] },
      { type := "electricity_produced",
        measurement := MNode.arr [
          { tariff_indicator := some "nl_peak", text := some (jrOfInt 50) },
          { tariff_indicator := some "nl_offpeak", text := some (jrOfInt 60) }] }],
    point_log := [] }

/-- What strategy B returns for `c4Logs`: note the zero-valued `gas` and
the `NaN` `gtm`, both present. -/
def c4Rec : MeterReadings :=
  { pwr := some (some ⟨0, 1⟩),
    l1 := some none, l2 := some none, l3 := some none,
    v1 := some none, v2 := some none, v3 := some none,
    i1 := some none, i2 := some none, i3 := some none,
    net := some (some ⟨3900, 10000⟩),
    p2 := some (some ⟨200, 1000⟩),
    p1 := some (some ⟨300, 1000⟩),
    n2 := some (some ⟨50, 1000⟩),
    n1 := some (some ⟨60, 1000⟩),
    tm := some (some ⟨1549191600000, 1000⟩),
    gas := some (some (jrOfInt 0)),
    gtm := some none }

/-- C4, counterexample.  A strategy-B response with no `gas_consumed`
cumulative log yields a record whose `gas` property is present with the
value `0` (and whose `gtm` is present with `NaN`), not absent as the claim
states. -/
theorem c4_counterexample :
    _getMeterReadings2 false c4Logs = Except.ok c4Rec ∧
    c4Rec.gas = some (some (jrOfInt 0)) ∧
    c4Rec.gas ≠ none ∧ c4Rec.gtm = some none ∧ c4Rec.gtm ≠ none := by
  refine ⟨by decide, by decide, by decide, by decide, by decide⟩

/-- C4, amended.  Strategy A keeps the fields it cannot populate absent
— `pwr`/`net`/`tm` are all-or-nothing with the power match, the gas-side
fields all-or-nothing with the gas match, the per-phase fields are never
present, and in an unreversed session the four unmatched tariff counters
are absent too — but in a reversed session the final polarity swap
materialises the four tariff counters as present-with-undefined even
when the power side did not match.  Strategy B instead assigns every
field of the record unconditionally, so a missing signal yields a
present field carrying its default (`0` for `gas` and the energy
counters, `NaN`/undefined-derived values for timestamps and per-phase
fields), never an absent field. -/
theorem c4_absent_fields :
    (∀ rev result r, _getMeterReadings1 rev result = Except.ok r →
        (powerPart result = none → r.pwr = none ∧ r.net = none ∧ r.tm = none) ∧
        (gasPart result = none → r.gas = none ∧ r.gtm = none) ∧
        r.l1 = none ∧ r.l2 = none ∧ r.l3 = none ∧
        r.v1 = none ∧ r.v2 = none ∧ r.v3 = none ∧
        r.i1 = none ∧ r.i2 = none ∧ r.i3 = none) ∧
    (∀ result r, _getMeterReadings1 false result = Except.ok r →
        powerPart result = none →
        r.p1 = none ∧ r.p2 = none ∧ r.n1 = none ∧ r.n2 = none) ∧
    (∀ result r, _getMeterReadings1 true result = Except.ok r →
        powerPart result = none →
        r.p1 = some none ∧ r.p2 = some none ∧ r.n1 = some none ∧ r.n2 = some none) ∧
    (∀ rev logs r, _getMeterReadings2 rev logs = Except.ok r →
        r.pwr.isSome ∧ r.l1.isSome ∧ r.l2.isSome ∧ r.l3.isSome ∧
        r.v1.isSome ∧ r.v2.isSome ∧ r.v3.isSome ∧
        r.i1.isSome ∧ r.i2.isSome ∧ r.i3.isSome ∧
        r.net.isSome ∧ r.p1.isSome ∧ r.p2.isSome ∧ r.n1.isSome ∧ r.n2.isSome ∧
        r.tm.isSome ∧ r.gas.isSome ∧ r.gtm.isSome) := by
  refine ⟨?_, ?_, ?_, ?_⟩
  · intro rev result r h
    have hr := gmr1_ok rev result r h
    subst hr
    rcases hp : powerPart result with _ | ⟨mp, mpp, pp, po, ppp, pop, ptm⟩ <;>
      rcases hg : gasPart result with _ | ⟨g, gt⟩ <;>
        cases rev <;> simp [rawReadings1, hp, hg, swapPolarity]
  · intro result r h hp
    have hr := gmr1_ok false result r h
    subst hr
    rcases hg : gasPart result with _ | ⟨g, gt⟩ <;>
      simp [rawReadings1, hp, hg]
  · intro result r h hp
    have hr := gmr1_ok true result r h
    subst hr
    rcases hg : gasPart result with _ | ⟨g, gt⟩ <;>
      simp [rawReadings1, hp, hg, swapPolarity, Option.join]
  · intro rev logs r h
    obtain ⟨st, hst, hr⟩ := gmr2_ok rev logs r h
    subst hr
    cases rev <;> simp [assemble2, swapPolarity]

/-- A strategy-A body carrying only the gas signal. -/
def c4GasOnly : String :=
  "<measurement log_date='2017-03-27T16:00:00+02:00' unit='m3' directionality='consumed'>4977.361</measurement>"

/-- What strategy A extracts from the gas-only body. -/
def c4RecA : MeterReadings :=
  { gas := some (some ⟨4977361, 1000⟩),
    gtm := some (some ⟨1490623200000, 1000⟩) }

/-- What strategy A returns from the gas-only body with the reversed
flag set: the swap has materialised all four tariff counters. -/
def c4RecARev : MeterReadings :=
  { p2 := some none, p1 := some none, n2 := some none, n1 := some none,
    gas := some (some ⟨4977361, 1000⟩),
    gtm := some (some ⟨1490623200000, 1000⟩) }

/-- C4, witness: every part of `c4_absent_fields` at concrete inputs —
an unreversed gas-only strategy-A response has every power-side field
absent, the same response with the reversed flag has the four counters
present-with-undefined, and the gas-free strategy-B response `c4Logs`
has every field present. -/
theorem c4_absent_fields_witness :
    _getMeterReadings1 false c4GasOnly = Except.ok c4RecA ∧
    c4RecA.pwr = none ∧ c4RecA.net = none ∧ c4RecA.tm = none ∧
    c4RecA.p1 = none ∧ c4RecA.p2 = none ∧ c4RecA.n1 = none ∧ c4RecA.n2 = none ∧
    _getMeterReadings1 true c4GasOnly = Except.ok c4RecARev ∧
    c4RecARev.p1 = some none ∧ c4RecARev.p2 = some none ∧
    c4RecARev.n1 = some none ∧ c4RecARev.n2 = some none ∧
    c4Rec.gas.isSome ∧ c4Rec.gtm.isSome ∧ c4Rec.v1.isSome := by
  have h1 : _getMeterReadings1 false c4GasOnly = Except.ok c4RecA := by decide
  have hA := (c4_absent_fields.1 false c4GasOnly c4RecA h1).1 (by rfl)
  have hB := c4_absent_fields.2.1 c4GasOnly c4RecA h1 (by rfl)
  have h2 : _getMeterReadings1 true c4GasOnly = Except.ok c4RecARev := by decide
  have hC := c4_absent_fields.2.2.1 c4GasOnly c4RecARev h2 (by rfl)
  have h3 : _getMeterReadings2 false c4Logs = Except.ok c4Rec := by decide
  have hD := c4_absent_fields.2.2.2 false c4Logs c4Rec h3
  exact ⟨h1, hA.1, hA.2.1, hA.2.2, hB.1, hB.2.1, hB.2.2.1, hB.2.2.2, h2,
    hC.1, hC.2.1, hC.2.2.1, hC.2.2.2,
    hD.2.2.2.2.2.2.2.2.2.2.2.2.2.2.2.2.1,
    hD.2.2.2.2.2.2.2.2.2.2.2.2.2.2.2.2.2, hD.2.2.2.2.1⟩

/-! ### C7: strategy-A failure condition and independence -/

/-- C7, amended.  The power side and the gas side of strategy A are
extracted independently — each of `tm`/`pwr` is a function of the power
match alone and each of `gas`/`gtm` a function of the gas match alone, so
one side failing to match never suppresses the other — and the call
rejects exactly when both the power timestamp and the gas timestamp are
falsy after extraction (absent, `NaN`, or zero — not only absent). -/
theorem c7_validity :
    (∀ rev result, _getMeterReadings1 rev result = Except.error ()
        ↔ (jsFalsy (rawReadings1 result).tm && jsFalsy (rawReadings1 result).gtm) = true) ∧
    (∀ result, (rawReadings1 result).gas = (gasPart result).map Prod.fst ∧
        (rawReadings1 result).gtm = (gasPart result).map Prod.snd) ∧
    (∀ result, (rawReadings1 result).tm = (powerPart result).map (fun v => v.2.2.2.2.2.2) ∧
        (rawReadings1 result).pwr = (powerPart result).map (fun v => jsub v.1 v.2.1)) := by
  refine ⟨?_, ?_, ?_⟩
  · intro rev result
    by_cases hc : (jsFalsy (rawReadings1 result).tm && jsFalsy (rawReadings1 result).gtm) = true <;>
      simp [_getMeterReadings1, hc]
  · intro result
    rcases hp : powerPart result with _ | ⟨mp, mpp, pp, po, ppp, pop, ptm⟩ <;>
      rcases hg : gasPart result with _ | ⟨g, gt⟩ <;> simp [rawReadings1, hp, hg]
  · intro result
    rcases hp : powerPart result with _ | ⟨mp, mpp, pp, po, ppp, pop, ptm⟩ <;>
      rcases hg : gasPart result with _ | ⟨g, gt⟩ <;> simp [rawReadings1, hp, hg]

/-- A strategy-A body whose power side fully matches with a well-formed
epoch timestamp (`1970-01-01T00:00:00Z`, i.e. Unix time `0`) and which
carries no gas signal at all. -/
def c7Input : String :=
  "<measurement unit='W' directionality='consumed'>100</measurement>\n" ++
  "<measurement unit='W' directionality='produced'>0</measurement>\n" ++
  "<measurement log_date='1970-01-01T00:00:00Z' unit='Wh' directionality='consumed' tariff_indicator='nl_offpeak'>300</measurement>\n" ++
  "<measurement unit='Wh' directionality='consumed' tariff_indicator='nl_peak'>200</measurement>\n" ++
  "<measurement unit='Wh' directionality='produced' tariff_indicator='nl_peak'>0</measurement>\n" ++
  "<measurement unit='Wh' directionality='produced' tariff_indicator='nl_offpeak'>0</measurement>"

/-- C7, counterexample.  The power timestamp of `c7Input` is present —
extracted as the number `0` from a well-formed date — and the gas
timestamp is absent, yet the call rejects: "rejects exactly when both
timestamps are absent" fails, because the code tests falsiness, not
absence. -/
theorem c7_counterexample :
    (rawReadings1 c7Input).tm = some (some ⟨0, 1000⟩) ∧
    (rawReadings1 c7Input).tm ≠ none ∧
    (rawReadings1 c7Input).gtm = none ∧
    _getMeterReadings1 false c7Input = Except.error () := by
  refine ⟨by decide, by decide, by decide, by decide⟩

/-! ### C8: per-phase currents -/

/-- C8, amended.  In every record strategy B returns, each per-phase
current field equals `round2(phaseNetPower / phaseVoltage)` computed from
the walk state (NaN-propagating), and each voltage field mirrors the walk
state; when a phase voltage is absent from the response, the current field
is still present — carrying `NaN` — rather than absent as the claim
states. -/
theorem c8_phase_current :
    ∀ rev logs r, _getMeterReadings2 rev logs = Except.ok r →
      ∃ st, extractLogs logs = Except.ok st ∧
        r.v1 = some st.v1 ∧ r.v2 = some st.v2 ∧ r.v3 = some st.v3 ∧
        r.i1 = some (jround2 (jdiv (jsub st.l1c st.l1p) st.v1)) ∧
        r.i2 = some (jround2 (jdiv (jsub st.l2c st.l2p) st.v2)) ∧
        r.i3 = some (jround2 (jdiv (jsub st.l3c st.l3p) st.v3)) ∧
        (st.v1 = none → r.i1 = some none) ∧
        (st.v2 = none → r.i2 = some none) ∧
        (st.v3 = none → r.i3 = some none) := by
  intro rev logs r h
  obtain ⟨st, hst, hr⟩ := gmr2_ok rev logs r h
  subst hr
  refine ⟨st, hst, ?_, ?_, ?_, ?_, ?_, ?_, ?_, ?_, ?_⟩ <;>
    cases rev <;> simp [assemble2, swapPolarity, jround2]
  all_goals intro hv
  all_goals rw [hv, jdiv_none_right, jmul_none_right]
  all_goals rfl

/-- A strategy-B subtree reporting phase-one power but no phase-one
voltage. -/
def c8Logs : DirectObjectsLogs :=
  { cumulative_log := [
      { type := "electricity_consumed", updated_date := some "2019-02-03T12:00:00+01:00",
        measurement := MNode.arr [
          { tariff_indicator := some "nl_peak", text := some (jrOfInt 200) },
          { tariff_indicator := some "nl_offpeak", text := some (jrOfInt 300) }] }],
    point_log := [
      { type := "electricity_phase_one_consumed",
        measurement := MNode.single { text := some (jrOfInt 230) } },
      { type := "electricity_phase_one_produced",
        measurement := MNode.single { text := some (jrOfInt 0) } }] }

/-- What strategy B returns for `c8Logs`. -/
def c8Rec : MeterReadings :=
  { pwr := some (some ⟨0, 1⟩),
    l1 := some (some ⟨230, 1⟩), l2 := some none, l3 := some none,
    v1 := some none, v2 := some none, v3 := some none,
    i1 := some none, i2 := some none, i3 := some none,
    net := some (some ⟨5000, 10000⟩),
    p2 := some (some ⟨200, 1000⟩),
    p1 := some (some ⟨300, 1000⟩),
    n2 := some (some ⟨0, 1⟩),
    n1 := some (some ⟨0, 1⟩),
    tm := some (some ⟨1549191600000, 1000⟩),
    gas := some (some ⟨0, 1⟩),
    gtm := some none }

/-- C8, counterexample.  With the phase-one voltage absent from the
response, the returned record still carries an `i1` property — with `NaN`
— instead of omitting it as the claim states. -/
theorem c8_counterexample :
    _getMeterReadings2 false c8Logs = Except.ok c8Rec ∧
    c8Rec.v1 = some none ∧ c8Rec.i1 = some none ∧ c8Rec.i1 ≠ none := by
  refine ⟨by decide, by decide, by decide, by decide⟩

/-- A strategy-B subtree with full phase-one data: 1150 W consumed, 0 W
produced, 230 V. -/
def c8WLogs : DirectObjectsLogs :=
  { cumulative_log := [
      { type := "electricity_consumed", updated_date := some "2019-02-03T12:00:00+01:00",
        measurement := MNode.arr [
          { tariff_indicator := some "nl_peak", text := some (jrOfInt 200) },
          { tariff_indicator := some "nl_offpeak", text := some (jrOfInt 300) }] }],
    point_log := [
      { type := "voltage_phase_one",
        measurement := MNode.single { text := some (jrOfInt 230) } },
      { type := "electricity_phase_one_consumed",
        measurement := MNode.single { text := some (jrOfInt 1150) } },
      { type := "electricity_phase_one_produced",
        measurement := MNode.single { text := some (jrOfInt 0) } }] }

/-- The walk state for `c8WLogs`. -/
def c8WSt : ExtractState2 :=
  { powerPeak := some ⟨200, 1000⟩,
    powerOffpeak := some ⟨300, 1000⟩,
    powerTm := "2019-02-03T12:00:00+01:00",
    v1 := some ⟨230, 1⟩,
    l1c := some ⟨1150, 1⟩,
    l1p := some ⟨0, 1⟩ }

/-- What strategy B returns for `c8WLogs`: `i1` is 5 A (1150 W / 230 V). -/
def c8WRec : MeterReadings :=
  { pwr := some (some ⟨0, 1⟩),
    l1 := some (some ⟨1150, 1⟩), l2 := some none, l3 := some none,
    v1 := some (some ⟨230, 1⟩), v2 := some none, v3 := some none,
    i1 := some (some ⟨500, 100⟩), i2 := some none, i3 := some none,
    net := some (some ⟨5000, 10000⟩),
    p2 := some (some ⟨200, 1000⟩),
    p1 := some (some ⟨300, 1000⟩),
    n2 := some (some ⟨0, 1⟩),
    n1 := some (some ⟨0, 1⟩),
    tm := some (some ⟨1549191600000, 1000⟩),
    gas := some (some ⟨0, 1⟩),
    gtm := some none }

/-- C8, witness: `c8_phase_current` applied to `c8WLogs`, with all
hypotheses discharged by evaluation. -/
theorem c8_phase_current_witness :
    _getMeterReadings2 false c8WLogs = Except.ok c8WRec ∧
    c8WRec.v1 = some c8WSt.v1 ∧
    c8WRec.i1 = some (jround2 (jdiv (jsub c8WSt.l1c c8WSt.l1p) c8WSt.v1)) ∧
    c8WRec.i2 = some (jround2 (jdiv (jsub c8WSt.l2c c8WSt.l2p) c8WSt.v2)) := by
  have h1 : _getMeterReadings2 false c8WLogs = Except.ok c8WRec := by decide
  obtain ⟨st, hst, hv1, hv2, hv3, hi1, hi2, hi3, ha1, ha2, ha3⟩ :=
    c8_phase_current false c8WLogs c8WRec h1
  have hst2 : extractLogs c8WLogs = Except.ok c8WSt := by decide
  rw [hst2] at hst
  injection hst with hst3
  rw [← hst3] at hv1 hi1 hi2
  exact ⟨h1, hv1, hi1, hi2⟩

/-! ### C6: the flattener's depth bound -/

/-- A synthetic element chain: `n` nested single-child elements, each
carrying an attribute block, over a numeric leaf. -/
def chainTree : Nat → JVal
  | 0 => JVal.vnum (jrOfInt 7)
  | n + 1 => JVal.obj [("_attributes", JVal.obj [("id", JVal.vstr "x")]), ("child", chainTree n)]

/-- `k` levels of what one `flatten` expansion makes of a `chainTree`
level (attributes hoisted), wrapped around an untouched subtree. -/
def wrapFlat : Nat → JVal → JVal
  | 0, inner => inner
  | k + 1, inner => JVal.obj [("id", JVal.vstr "x"), ("child", wrapFlat k inner)]

/-- C6.  `flatten` is a total function, its recursion is bounded at depth
10: any call that has already reached `level ≥ 10` returns its input
unexpanded, and the 12-deep synthetic chain comes back with exactly ten
levels expanded and the remaining 2-deep subtree embedded verbatim —
still recognisably unexpanded, since an expanded level has its
`_attributes` hoisted. -/
theorem c6_flatten_depth :
    (∀ json level, 10 ≤ level → flatten json level = json) ∧
    flatten (chainTree 12) 0 = wrapFlat 10 (chainTree 2) ∧
    wrapFlat 10 (chainTree 2) ≠ chainTree 12 := by
  refine ⟨?_, by rfl, ?_⟩
  · intro json level h
    have hz : ¬ level = 0 := by omega
    show flattenF 11 json level = json
    unfold flattenF
    simp only [hz, if_false]
    rw [if_pos (by omega)]
  · intro h
    simp only [wrapFlat, chainTree, JVal.obj.injEq, List.cons.injEq, Prod.mk.injEq] at h
    exact absurd h.1.1 (by decide)

/-- C6, witness: the depth-bound branch of `c6_flatten_depth` applied at
`level = 10` to a concrete 3-deep tree, which is returned unexpanded. -/
theorem c6_flatten_depth_witness :
    flatten (chainTree 3) 10 = chainTree 3 :=
  c6_flatten_depth.1 (chainTree 3) 10 (by norm_num)

/-! ### Session-state lemmas -/

theorem mr_loggedIn (s : Session) (force : Bool) (tr : Transport) :
    ((_makeRequest s force tr).1).loggedIn = s.loggedIn := by
  unfold _makeRequest
  repeat' split
  all_goals rfl

theorem mr_len (s : Session) (force : Bool) (tr : Transport) :
    ((_makeRequest s force tr).2.1).length ≤ tr.length := by
  unfold _makeRequest
  repeat' split
  all_goals simp

theorem mr_force_consume (s : Session) (t : Except String HttpResult) (rest : Transport) :
    (_makeRequest s true (t :: rest)).2.1 = rest := by
  unfold _makeRequest
  repeat' split
  all_goals simp_all

theorem mr_consume (s : Session) (force : Bool) (t : Except String HttpResult)
    (rest : Transport) (h : s.loggedIn = true) :
    (_makeRequest s force (t :: rest)).2.1 = rest := by
  unfold _makeRequest
  rw [if_neg (by simp [h])]
  repeat' split
  all_goals simp_all

theorem mr_not_nli (s : Session) (force : Bool) (tr : Transport) (h : s.loggedIn = true) :
    (_makeRequest s force tr).2.2 ≠ Except.error ReqErr.notLoggedIn := by
  unfold _makeRequest
  rw [if_neg (by simp [h])]
  repeat' split
  all_goals simp

theorem mr_force_not_nli (s : Session) (tr : Transport) :
    (_makeRequest s true tr).2.2 ≠ Except.error ReqErr.notLoggedIn := by
  unfold _makeRequest
  repeat' split
  all_goals simp_all

theorem gfl_loggedIn (s : Session) (tr : Transport) :
    ((getFirmwareLevel s tr).1).loggedIn = s.loggedIn := by
  unfold getFirmwareLevel
  rcases h1 : _makeRequest s true tr with ⟨s1, tr1, r1⟩
  have e1 : s1.loggedIn = s.loggedIn := by
    have := mr_loggedIn s true tr
    rw [h1] at this
    exact this
  rcases r1 with e | body
  · exact e1
  · dsimp only
    cases hf : regexExec regexFwLevel3 body with
    | some fw => exact e1
    | none =>
      rcases h2 : _makeRequest s1 true tr1 with ⟨s2, tr2, r2⟩
      have e2 : s2.loggedIn = s1.loggedIn := by
        have := mr_loggedIn s1 true tr1
        rw [h2] at this
        exact this
      rcases r2 with e | body2
      · dsimp only
        rw [e2, e1]
      · dsimp only
        cases regexExec regexFwLevel2 body2 <;> dsimp only <;> rw [e2, e1]

theorem gfl_len (s : Session) (tr : Transport) :
    ((getFirmwareLevel s tr).2.1).length ≤ tr.length := by
  unfold getFirmwareLevel
  rcases h1 : _makeRequest s true tr with ⟨s1, tr1, r1⟩
  have e1 : tr1.length ≤ tr.length := by
    have := mr_len s true tr
    rw [h1] at this
    exact this
  rcases r1 with e | body
  · exact e1
  · dsimp only
    cases hf : regexExec regexFwLevel3 body with
    | some fw => exact e1
    | none =>
      rcases h2 : _makeRequest s1 true tr1 with ⟨s2, tr2, r2⟩
      have e2 : tr2.length ≤ tr1.length := by
        have := mr_len s1 true tr1
        rw [h2] at this
        exact this
      rcases r2 with e | body2
      · exact le_trans e2 e1
      · dsimp only
        cases regexExec regexFwLevel2 body2 <;> exact le_trans e2 e1

theorem gfl_consume (s : Session) (t : Except String HttpResult) (rest : Transport) :
    ((getFirmwareLevel s (t :: rest)).2.1).length ≤ rest.length := by
  unfold getFirmwareLevel
  rcases h1 : _makeRequest s true (t :: rest) with ⟨s1, tr1, r1⟩
  have e1 : tr1 = rest := by
    have := mr_force_consume s t rest
    rw [h1] at this
    exact this
  rcases r1 with e | body
  · simp [e1]
  · dsimp only
    cases hf : regexExec regexFwLevel3 body with
    | some fw => simp [e1]
    | none =>
      rcases h2 : _makeRequest s1 true tr1 with ⟨s2, tr2, r2⟩
      have e2 : tr2.length ≤ rest.length := by
        have := mr_len s1 true tr1
        rw [h2] at this
        rw [e1] at this
        exact this
      rcases r2 with e | body2
      · exact e2
      · dsimp only
        cases regexExec regexFwLevel2 body2 <;> exact e2

theorem gfl_not_nli (s : Session) (tr : Transport) :
    (getFirmwareLevel s tr).2.2 ≠ Except.error (ReqErr.notLoggedIn : ReqErr) := by
  unfold getFirmwareLevel
  rcases h1 : _makeRequest s true tr with ⟨s1, tr1, r1⟩
  have e1 := mr_force_not_nli s tr
  rw [h1] at e1
  rcases r1 with e | body
  · simpa using e1
  · dsimp only
    cases hf : regexExec regexFwLevel3 body with
    | some fw => simp
    | none =>
      rcases h2 : _makeRequest s1 true tr1 with ⟨s2, tr2, r2⟩
      have e2 := mr_force_not_nli s1 tr1
      rw [h2] at e2
      rcases r2 with e | body2
      · simpa using e2
      · dsimp only
        cases regexExec regexFwLevel2 body2 <;> simp

theorem mm_loggedIn (s : Session) (tr : Transport) :
    ((_getMeterMethod s tr).1).loggedIn = s.loggedIn := by
  unfold _getMeterMethod
  rcases h1 : getFirmwareLevel s tr with ⟨s1, tr1, r1⟩
  have e1 : s1.loggedIn = s.loggedIn := by
    have := gfl_loggedIn s tr
    rw [h1] at this
    exact this
  rcases r1 with e | v
  · exact e1
  · dsimp only
    exact e1

theorem strat1_loggedIn (s : Session) (tr : Transport) :
    ((strat1Branch s tr).1).loggedIn = s.loggedIn := by
  unfold strat1Branch
  rcases h1 : _makeRequest s false tr with ⟨s2, tr2, r⟩
  have e1 : s2.loggedIn = s.loggedIn := by
    have := mr_loggedIn s false tr
    rw [h1] at this
    exact this
  rcases r with e | body
  · exact e1
  · dsimp only
    cases _getMeterReadings1 s2.reversed body <;> exact e1

theorem strat2_loggedIn (s : Session) (tr : Transport)
    (parse : String → Except Unit DirectObjectsLogs) :
    ((strat2Branch s tr parse).1).loggedIn = s.loggedIn := by
  unfold strat2Branch
  rcases h1 : _makeRequest s false tr with ⟨s2, tr2, r⟩
  have e1 : s2.loggedIn = s.loggedIn := by
    have := mr_loggedIn s false tr
    rw [h1] at this
    exact this
  rcases r with e | body
  · exact e1
  · dsimp only
    cases parse body with
    | error e => exact e1
    | ok logs =>
      dsimp only
      cases _getMeterReadings2 s2.reversed logs <;> exact e1

theorem gmr_loggedIn (s : Session) (tr : Transport)
    (parse : String → Except Unit DirectObjectsLogs) :
    ((getMeterReadings s tr parse).1).loggedIn = s.loggedIn := by
  unfold getMeterReadings
  by_cases hm : jsFalsyMethod s.meterMethod = true
  · rw [if_pos hm]
    rcases h1 : _getMeterMethod s tr with ⟨s1, tr1, r1⟩
    have e1 : s1.loggedIn = s.loggedIn := by
      have := mm_loggedIn s tr
      rw [h1] at this
      exact this
    rcases r1 with e | v
    · exact e1
    · dsimp only
      split
      · rw [strat1_loggedIn, e1]
      · rw [strat2_loggedIn, e1]
  · rw [if_neg hm]
    dsimp only
    split
    · exact strat1_loggedIn s tr
    · exact strat2_loggedIn s tr parse

theorem loginFinish_loggedIn (s2 : Session) (tr : Transport) :
    ((loginFinish s2 tr).1).loggedIn = isOkB (loginFinish s2 tr).2.2 := by
  unfold loginFinish
  rcases h1 : getFirmwareLevel s2 tr with ⟨s3, tr3, r3⟩
  rcases r3 with e | v <;> rfl

theorem login_loggedIn (s : Session) (opts : SessionOptions)
    (discovery : Except String String) (tr : Transport) :
    ((login s opts discovery tr).1).loggedIn = isOkB (login s opts discovery tr).2.2 := by
  unfold login
  dsimp only
  split
  · rcases discovery with e | ip
    · rfl
    · exact loginFinish_loggedIn _ tr
  · exact loginFinish_loggedIn _ tr

theorem reboot_loggedIn (s : Session) (tres : Except String HttpResult) :
    ((reboot s tres).1).loggedIn
      = (if (reboot s tres).2 = Except.ok true then false else s.loggedIn) := by
  unfold reboot
  rcases tres with e | r
  · simp
  · dsimp only
    by_cases hp : r.headers.vendorPlugwise = true
    · simp [hp]
    · rw [if_neg hp]
      simp

theorem statusV2_loggedIn (s : Session) (tr : Transport)
    (parse : String → Except Unit JVal) :
    ((_getStatusV2 s tr parse).1).loggedIn = s.loggedIn := by
  unfold _getStatusV2
  rcases h1 : _makeRequest s false tr with ⟨s1, tr1, r⟩
  have e1 : s1.loggedIn = s.loggedIn := by
    have := mr_loggedIn s false tr
    rw [h1] at this
    exact this
  rcases r with e | body
  · exact e1
  · dsimp only
    cases parse body <;> exact e1

theorem statusV3_loggedIn (s : Session) (tr : Transport)
    (parse : String → Except Unit JVal) :
    ((_getStatusV3 s tr parse).1).loggedIn = s.loggedIn := by
  unfold _getStatusV3
  rcases h1 : _makeRequest s true tr with ⟨s1, tr1, r⟩
  have e1 : s1.loggedIn = s.loggedIn := by
    have := mr_loggedIn s true tr
    rw [h1] at this
    exact this
  rcases r with e | body
  · exact e1
  · dsimp only
    cases parse body <;> exact e1

theorem getStatus_loggedIn (s : Session) (tr : Transport)
    (parse2 parse3 : String → Except Unit JVal) :
    ((getStatus s tr parse2 parse3).1).loggedIn = s.loggedIn := by
  unfold getStatus
  cases s.firmwareLevel with
  | none => rfl
  | some fw =>
    dsimp only
    split
    · exact statusV3_loggedIn s tr parse3
    · exact statusV2_loggedIn s tr parse2

theorem getLogs_loggedIn (s : Session) (tr : Transport)
    (parse : String → Except Unit JVal) :
    ((getLogs s tr parse).1).loggedIn = s.loggedIn := by
  unfold getLogs
  rcases h1 : _makeRequest s false tr with ⟨s1, tr1, r⟩
  have e1 : s1.loggedIn = s.loggedIn := by
    have := mr_loggedIn s false tr
    rw [h1] at this
    exact this
  rcases r with e | body
  · exact e1
  · dsimp only
    cases parse body <;> exact e1

theorem getInterfaceStatus_loggedIn (s : Session) (tr : Transport)
    (post : String → Except Unit JVal) :
    ((getInterfaceStatus s tr post).1).loggedIn = s.loggedIn := by
  unfold getInterfaceStatus
  rcases h1 : _makeRequest s false tr with ⟨s1, tr1, r⟩
  have e1 : s1.loggedIn = s.loggedIn := by
    have := mr_loggedIn s false tr
    rw [h1] at this
    exact this
  rcases r with e | body
  · exact e1
  · dsimp only
    cases post body <;> exact e1

theorem getWifiScan_loggedIn (s : Session) (tr : Transport)
    (post : String → Except Unit JVal) :
    ((getWifiScan s tr post).1).loggedIn = s.loggedIn := by
  unfold getWifiScan
  rcases h1 : _makeRequest s false tr with ⟨s1, tr1, r⟩
  have e1 : s1.loggedIn = s.loggedIn := by
    have := mr_loggedIn s false tr
    rw [h1] at this
    exact this
  rcases r with e | body
  · exact e1
  · dsimp only
    cases post body <;> exact e1

theorem discover_loggedIn (s : Session) (res : Except String String) :
    ((discover s res).1).loggedIn = s.loggedIn := by
  unfold discover
  rcases res with e | ip <;> rfl

/-! ### C9: the loggedIn transition discipline -/

/-- C9.  `_makeRequest` never writes `loggedIn` — in particular a 401 on
a non-login data call is surfaced as an `unauthorized` error with the
flag untouched; `login` ends with the flag equal to its own outcome
(`true` exactly on success, `false` on any failure); `reboot` clears the
flag exactly when the device accepted the reboot; and every other
operation — status, meter readings, logs, interface status, wifi scan,
firmware detection, strategy detection, discovery — leaves the flag
unchanged on success and on failure. -/
theorem c9_loggedIn_transitions :
    (∀ s force tr, ((_makeRequest s force tr).1).loggedIn = s.loggedIn) ∧
    (∀ (s : Session) hdrs body rest,
        (_makeRequest { s with loggedIn := true } false
            (Except.ok { statusCode := some 401, headers := hdrs, body := body } :: rest)).2.2
          = Except.error ReqErr.unauthorized ∧
        ((_makeRequest { s with loggedIn := true } false
            (Except.ok { statusCode := some 401, headers := hdrs, body := body } :: rest)).1).loggedIn
          = true) ∧
    (∀ s opts discovery tr, ((login s opts discovery tr).1).loggedIn
        = isOkB (login s opts discovery tr).2.2) ∧
    (∀ s tres, ((reboot s tres).1).loggedIn
        = (if (reboot s tres).2 = Except.ok true then false else s.loggedIn)) ∧
    (∀ s tr p2 p3, ((getStatus s tr p2 p3).1).loggedIn = s.loggedIn) ∧
    (∀ s tr p, ((getMeterReadings s tr p).1).loggedIn = s.loggedIn) ∧
    (∀ s tr p, ((getLogs s tr p).1).loggedIn = s.loggedIn) ∧
    (∀ s tr p, ((getInterfaceStatus s tr p).1).loggedIn = s.loggedIn) ∧
    (∀ s tr p, ((getWifiScan s tr p).1).loggedIn = s.loggedIn) ∧
    (∀ s tr, ((getFirmwareLevel s tr).1).loggedIn = s.loggedIn) ∧
    (∀ s tr, ((_getMeterMethod s tr).1).loggedIn = s.loggedIn) ∧
    (∀ s res, ((discover s res).1).loggedIn = s.loggedIn) := by
  refine ⟨mr_loggedIn, ?_, login_loggedIn, reboot_loggedIn, getStatus_loggedIn,
    gmr_loggedIn, getLogs_loggedIn, getInterfaceStatus_loggedIn, getWifiScan_loggedIn,
    gfl_loggedIn, mm_loggedIn, discover_loggedIn⟩
  intro s hdrs body rest
  constructor
  · unfold _makeRequest
    rw [if_neg (by simp)]
    cases hsc : hdrs.setCookie <;> simp [hsc]
  · rw [mr_loggedIn]

/-! ### Consumption and guard lemmas for the fresh-session claim -/

theorem mm_consume (s : Session) (t : Except String HttpResult) (rest : Transport) :
    ((_getMeterMethod s (t :: rest)).2.1).length ≤ rest.length := by
  unfold _getMeterMethod
  rcases h1 : getFirmwareLevel s (t :: rest) with ⟨s1, tr1, r1⟩
  have e1 : tr1.length ≤ rest.length := by
    have := gfl_consume s t rest
    rw [h1] at this
    exact this
  rcases r1 with e | v
  · exact e1
  · exact e1

theorem mm_not_nli (s : Session) (tr : Transport) :
    (_getMeterMethod s tr).2.2 ≠ Except.error (ReqErr.notLoggedIn : ReqErr) := by
  unfold _getMeterMethod
  rcases h1 : getFirmwareLevel s tr with ⟨s1, tr1, r1⟩
  have e1 := gfl_not_nli s tr
  rw [h1] at e1
  rcases r1 with e | v
  · simpa using e1
  · simp

theorem strat1_len (s : Session) (tr : Transport) :
    ((strat1Branch s tr).2.1).length ≤ tr.length := by
  unfold strat1Branch
  rcases h1 : _makeRequest s false tr with ⟨s2, tr2, r⟩
  have e1 : tr2.length ≤ tr.length := by
    have := mr_len s false tr
    rw [h1] at this
    exact this
  rcases r with e | body
  · exact e1
  · dsimp only
    cases _getMeterReadings1 s2.reversed body <;> exact e1

theorem strat2_len (s : Session) (tr : Transport)
    (parse : String → Except Unit DirectObjectsLogs) :
    ((strat2Branch s tr parse).2.1).length ≤ tr.length := by
  unfold strat2Branch
  rcases h1 : _makeRequest s false tr with ⟨s2, tr2, r⟩
  have e1 : tr2.length ≤ tr.length := by
    have := mr_len s false tr
    rw [h1] at this
    exact this
  rcases r with e | body
  · exact e1
  · dsimp only
    cases parse body with
    | error e => exact e1
    | ok logs =>
      dsimp only
      cases _getMeterReadings2 s2.reversed logs <;> exact e1

theorem strat1_consume (s : Session) (t : Except String HttpResult) (rest : Transport)
    (h : s.loggedIn = true) :
    (strat1Branch s (t :: rest)).2.1 = rest := by
  unfold strat1Branch
  rcases h1 : _makeRequest s false (t :: rest) with ⟨s2, tr2, r⟩
  have e1 : tr2 = rest := by
    have := mr_consume s false t rest h
    rw [h1] at this
    exact this
  rcases r with e | body
  · exact e1
  · dsimp only
    cases _getMeterReadings1 s2.reversed body <;> exact e1

theorem strat2_consume (s : Session) (t : Except String HttpResult) (rest : Transport)
    (parse : String → Except Unit DirectObjectsLogs) (h : s.loggedIn = true) :
    (strat2Branch s (t :: rest) parse).2.1 = rest := by
  unfold strat2Branch
  rcases h1 : _makeRequest s false (t :: rest) with ⟨s2, tr2, r⟩
  have e1 : tr2 = rest := by
    have := mr_consume s false t rest h
    rw [h1] at this
    exact this
  rcases r with e | body
  · exact e1
  · dsimp only
    cases parse body with
    | error e => exact e1
    | ok logs =>
      dsimp only
      cases _getMeterReadings2 s2.reversed logs <;> exact e1

theorem strat1_not_nli (s : Session) (tr : Transport) (h : s.loggedIn = true) :
    (strat1Branch s tr).2.2 ≠ Except.error (ReqErr.notLoggedIn : ReqErr) := by
  unfold strat1Branch
  rcases h1 : _makeRequest s false tr with ⟨s2, tr2, r⟩
  have e1 := mr_not_nli s false tr h
  rw [h1] at e1
  rcases r with e | body
  · simpa using e1
  · dsimp only
    cases _getMeterReadings1 s2.reversed body <;> simp

theorem strat2_not_nli (s : Session) (tr : Transport)
    (parse : String → Except Unit DirectObjectsLogs) (h : s.loggedIn = true) :
    (strat2Branch s tr parse).2.2 ≠ Except.error (ReqErr.notLoggedIn : ReqErr) := by
  unfold strat2Branch
  rcases h1 : _makeRequest s false tr with ⟨s2, tr2, r⟩
  have e1 := mr_not_nli s false tr h
  rw [h1] at e1
  rcases r with e | body
  · simpa using e1
  · dsimp only
    cases parse body with
    | error e => simp
    | ok logs =>
      dsimp only
      cases _getMeterReadings2 s2.reversed logs <;> simp

/-! ### C10: the freshly constructed session -/

/-- The trivial external parse used in the fresh-session fixtures. -/
def trivialParse : String → Except Unit JVal := fun _ => Except.ok (JVal.obj [])

/-- C10, counterexample.  On a freshly constructed session — whose
firmware level is unknown — `getStatus` does not attempt any transport
call at all: it resolves an empty status object and hands back the
transport oracle untouched, contradicting the claim that every
non-forced public operation on a new session attempts a transport call. -/
theorem c10_counterexample :
    getStatus (mkSession {}) [respond "<status/>"] trivialParse trivialParse
      = (mkSession {}, [respond "<status/>"], Except.ok (JVal.obj [])) := by
  rfl

/-- C10, amended.  A fresh session has `loggedIn = true`, so
`getMeterReadings`, `getLogs`, `getInterfaceStatus` and `getWifiScan` on
a new session pass the not-logged-in guard — they consume transport
outcomes and never fail with the not-logged-in error — while `getStatus`
on a new session returns an empty status without attempting any
transport call (and also without a not-logged-in error); the guard can
only take effect once `loggedIn` is `false`, which per C9 happens only
after a failed `login` or an accepted `reboot`. -/
theorem c10_fresh_session :
    (∀ opts, (mkSession opts).loggedIn = true) ∧
    (∀ opts t rest p, (getLogs (mkSession opts) (t :: rest) p).2.1 = rest ∧
        (getLogs (mkSession opts) (t :: rest) p).2.2 ≠ Except.error ReqErr.notLoggedIn) ∧
    (∀ opts t rest p, (getInterfaceStatus (mkSession opts) (t :: rest) p).2.1 = rest ∧
        (getInterfaceStatus (mkSession opts) (t :: rest) p).2.2 ≠ Except.error ReqErr.notLoggedIn) ∧
    (∀ opts t rest p, (getWifiScan (mkSession opts) (t :: rest) p).2.1 = rest ∧
        (getWifiScan (mkSession opts) (t :: rest) p).2.2 ≠ Except.error ReqErr.notLoggedIn) ∧
    (∀ opts t rest p,
        ((getMeterReadings (mkSession opts) (t :: rest) p).2.1).length ≤ rest.length ∧
        (getMeterReadings (mkSession opts) (t :: rest) p).2.2 ≠ Except.error ReqErr.notLoggedIn) ∧
    (∀ opts tr p2 p3, getStatus (mkSession opts) tr p2 p3
        = (mkSession opts, tr, Except.ok (JVal.obj []))) := by
  refine ⟨fun opts => rfl, ?_, ?_, ?_, ?_, fun opts tr p2 p3 => rfl⟩
  · intro opts t rest p
    have hL : (mkSession opts).loggedIn = true := rfl
    constructor
    · unfold getLogs
      rcases h1 : _makeRequest (mkSession opts) false (t :: rest) with ⟨s1, tr1, r⟩
      have e1 : tr1 = rest := by
        have := mr_consume (mkSession opts) false t rest hL
        rw [h1] at this
        exact this
      rcases r with e | body
      · exact e1
      · dsimp only
        cases p body <;> exact e1
    · unfold getLogs
      rcases h1 : _makeRequest (mkSession opts) false (t :: rest) with ⟨s1, tr1, r⟩
      have e1 := mr_not_nli (mkSession opts) false (t :: rest) hL
      rw [h1] at e1
      rcases r with e | body
      · simpa using e1
      · dsimp only
        cases p body <;> simp
  · intro opts t rest p
    have hL : (mkSession opts).loggedIn = true := rfl
    constructor
    · unfold getInterfaceStatus
      rcases h1 : _makeRequest (mkSession opts) false (t :: rest) with ⟨s1, tr1, r⟩
      have e1 : tr1 = rest := by
        have := mr_consume (mkSession opts) false t rest hL
        rw [h1] at this
        exact this
      rcases r with e | body
      · exact e1
      · dsimp only
        cases p body <;> exact e1
    · unfold getInterfaceStatus
      rcases h1 : _makeRequest (mkSession opts) false (t :: rest) with ⟨s1, tr1, r⟩
      have e1 := mr_not_nli (mkSession opts) false (t :: rest) hL
      rw [h1] at e1
      rcases r with e | body
      · simpa using e1
      · dsimp only
        cases p body <;> simp
  · intro opts t rest p
    have hL : (mkSession opts).loggedIn = true := rfl
    constructor
    · unfold getWifiScan
      rcases h1 : _makeRequest (mkSession opts) false (t :: rest) with ⟨s1, tr1, r⟩
      have e1 : tr1 = rest := by
        have := mr_consume (mkSession opts) false t rest hL
        rw [h1] at this
        exact this
      rcases r with e | body
      · exact e1
      · dsimp only
        cases p body <;> exact e1
    · unfold getWifiScan
      rcases h1 : _makeRequest (mkSession opts) false (t :: rest) with ⟨s1, tr1, r⟩
      have e1 := mr_not_nli (mkSession opts) false (t :: rest) hL
      rw [h1] at e1
      rcases r with e | body
      · simpa using e1
      · dsimp only
        cases p body <;> simp
  · intro opts t rest p
    have hL : (mkSession opts).loggedIn = true := rfl
    constructor
    · unfold getMeterReadings
      by_cases hm : jsFalsyMethod (mkSession opts).meterMethod = true
      · rw [if_pos hm]
        rcases h1 : _getMeterMethod (mkSession opts) (t :: rest) with ⟨s1, tr1, r1⟩
        have e1 : tr1.length ≤ rest.length := by
          have := mm_consume (mkSession opts) t rest
          rw [h1] at this
          exact this
        rcases r1 with e | v
        · exact e1
        · dsimp only
          split
          · exact le_trans (strat1_len s1 tr1) e1
          · exact le_trans (strat2_len s1 tr1 p) e1
      · rw [if_neg hm]
        dsimp only
        split
        · have := strat1_consume (mkSession opts) t rest hL
          rw [this]
        · have := strat2_consume (mkSession opts) t rest p hL
          rw [this]
    · unfold getMeterReadings
      by_cases hm : jsFalsyMethod (mkSession opts).meterMethod = true
      · rw [if_pos hm]
        rcases h1 : _getMeterMethod (mkSession opts) (t :: rest) with ⟨s1, tr1, r1⟩
        have hL1 : s1.loggedIn = true := by
          have := mm_loggedIn (mkSession opts) (t :: rest)
          rw [h1] at this
          rw [this]
          exact hL
        have e1 := mm_not_nli (mkSession opts) (t :: rest)
        rw [h1] at e1
        rcases r1 with e | v
        · simpa using e1
        · dsimp only
          split
          · exact strat1_not_nli s1 tr1 hL1
          · exact strat2_not_nli s1 tr1 p hL1
      · rw [if_neg hm]
        dsimp only
        split
        · exact strat1_not_nli _ _ hL
        · exact strat2_not_nli _ _ p hL

end SmileP1
